import Mathlib

/-!
Verification of the Agricast weather-acquisition and agronomic-derivation
core against its natural-language specification.

The JavaScript sources under `functions/src/services` are shallowly embedded:
JavaScript numbers are modelled as `JsNum` (a rational value or NaN; the
non-finite infinities are outside the modelled range), nullable / possibly
absent values as `Option`, thrown exceptions as `Except`, and the Firestore
cache as an explicit association of keys to entries threaded through each
operation together with an explicit clock and fault flags for I/O failures.
-/

set_option maxRecDepth 10000

/-- A JavaScript number as used by the services: either NaN (produced by
`parseFloat` on non-numeric text) or a rational value. -/
inductive JsNum where
  | nan : JsNum
  | num : ℚ → JsNum
deriving DecidableEq, Repr

/-- JavaScript `a <= b` for a possibly-NaN left operand and a numeric right
operand: any comparison with NaN is false. -/
def jsLe (a : JsNum) (b : ℚ) : Bool :=
  match a with
  | .nan => false
  | .num q => q ≤ b

/-- JavaScript `a <= b` on two possibly-NaN operands. -/
def jsLeNN (a b : JsNum) : Bool :=
  match a, b with
  | .num q, .num r => q ≤ r
  | _, _ => false

/-- JavaScript truthiness of a number: `0` and `NaN` are falsy. -/
def jsNumTruthy (a : JsNum) : Bool :=
  match a with
  | .nan => false
  | .num q => q ≠ 0

/-- JavaScript whitespace characters recognised by `parseFloat` (ASCII part). -/
def jsIsWs (c : Char) : Bool :=
  c = ' ' || c = '\t' || c = '\n' || c = '\r' || c = '\x0b' || c = '\x0c'

/-- Numeric value of a digit run (most significant first). -/
def digitsVal (l : List Char) : Nat :=
  l.foldl (fun acc c => acc * 10 + (c.toNat - '0'.toNat)) 0

/-- `parseFloat` of JavaScript on the modelled range: skip leading whitespace,
an optional sign, then the longest prefix `digits [. digits] [e [sign] digits]`;
if no digit is found the result is NaN.  (The `Infinity` literals are outside
the modelled range.) -/
def jsParseFloat (s : String) : JsNum :=
  let l := s.data.dropWhile jsIsWs
  let (neg, l1) :=
    match l with
    | '-' :: r => (true, r)
    | '+' :: r => (false, r)
    | _ => (false, l)
  let intPart := l1.takeWhile Char.isDigit
  let l2 := l1.dropWhile Char.isDigit
  let (fracPart, l3) :=
    match l2 with
    | '.' :: r => (r.takeWhile Char.isDigit, r.dropWhile Char.isDigit)
    | _ => ([], l2)
  if intPart.isEmpty && fracPart.isEmpty then .nan
  else
    let mantissa : ℚ :=
      (digitsVal intPart : ℚ) + (digitsVal fracPart : ℚ) / (10 : ℚ) ^ fracPart.length
    let expVal : Option ℤ :=
      match l3 with
      | 'e' :: r | 'E' :: r =>
        let (eneg, r1) :=
          match r with
          | '-' :: r2 => (true, r2)
          | '+' :: r2 => (false, r2)
          | _ => (false, r)
        let eDigits := r1.takeWhile Char.isDigit
        if eDigits.isEmpty then none
        else some (if eneg then -(digitsVal eDigits : ℤ) else (digitsVal eDigits : ℤ))
      | _ => none
    let v : ℚ :=
      match expVal with
      | none => mantissa
      | some e => mantissa * (10 : ℚ) ^ e
    .num (if neg then -v else v)

/-- `parseInt` (base 10) applied to a regex capture that is all digits. -/
def jsParseIntDigits (l : List Char) : Nat := digitsVal l

/-- Whether `needle` is an initial segment of `hay`. -/
def startsWithChars : List Char → List Char → Bool
  | _, [] => true
  | [], _ :: _ => false
  | c :: cs, d :: ds => c = d && startsWithChars cs ds

/-- Whether `needle` occurs as a contiguous run inside `hay`. -/
def hasSubChars : List Char → List Char → Bool
  | [], needle => needle.isEmpty
  | c :: rest, needle => startsWithChars (c :: rest) needle || hasSubChars rest needle

/-- Whether `needle` occurs as a contiguous substring of `hay`
(JavaScript `String.prototype.includes`). -/
def strIncludes (hay needle : String) : Bool :=
  hasSubChars hay.data needle.data

/-- JavaScript `String.prototype.toLowerCase` on the modelled (ASCII) range. -/
def jsToLower (s : String) : String :=
  ⟨s.data.map Char.toLower⟩

/- ===================== C1: calculateGDD ===================== -/

/-- `calculateGDD` from `functions/src/services/auth/usernameService.js`:
clamp both temperatures into `[baseTemp, maxThreshold]`
(`Math.min(Math.max(t, baseTemp), maxThreshold)`), average, subtract the base
and floor the result at zero. -/
def calculateGDD (tempMax tempMin : ℚ) (baseTemp : ℚ := 10) (maxThreshold : ℚ := 30) : ℚ :=
  let adjMax := min (max tempMax baseTemp) maxThreshold
  let adjMin := min (max tempMin baseTemp) maxThreshold
  let avgTemp := (adjMax + adjMin) / 2
  max 0 (avgTemp - baseTemp)

/-- C1 counterexample: the claim's concrete value is wrong.  With
`tempMax = 25`, `tempMin = 15`, `baseTemp = 10`, `maxThreshold = 30` the
clamped values are 25 and 15, their average is 20, and GDD = 20 − 10 = 10,
not the claimed 5.0. -/
theorem calculateGDD_example_cex : calculateGDD 25 15 10 30 ≠ 5 := by
  norm_num [calculateGDD]

/-- C1 (amended): for all numeric inputs with `baseTemp < maxThreshold`,
`calculateGDD` clamps both temperatures independently into
`[baseTemp, maxThreshold]` and returns `max 0 (average - baseTemp)`; the
result is always nonnegative, is `0` whenever both temperatures are at most
`baseTemp`, and `calculateGDD 25 15 10 30 = 10` (average 20 minus base 10). -/
theorem calculateGDD_clamped_nonneg (tempMax tempMin baseTemp maxThreshold : ℚ)
    (hbc : baseTemp < maxThreshold) :
    calculateGDD tempMax tempMin baseTemp maxThreshold
      = max 0 ((min (max tempMax baseTemp) maxThreshold
          + min (max tempMin baseTemp) maxThreshold) / 2 - baseTemp)
    ∧ 0 ≤ calculateGDD tempMax tempMin baseTemp maxThreshold
    ∧ (tempMax ≤ baseTemp → tempMin ≤ baseTemp →
        calculateGDD tempMax tempMin baseTemp maxThreshold = 0)
    ∧ calculateGDD 25 15 10 30 = 10 := by
  refine ⟨rfl, le_max_left _ _, ?_, by norm_num [calculateGDD]⟩
  intro hmax hmin
  have h1 : max tempMax baseTemp = baseTemp := max_eq_right hmax
  have h2 : max tempMin baseTemp = baseTemp := max_eq_right hmin
  have h3 : min baseTemp maxThreshold = baseTemp := min_eq_left hbc.le
  simp only [calculateGDD, h1, h2, h3]
  norm_num

/-- Witness for the amended C1 at the concrete input. -/
theorem calculateGDD_clamped_nonneg_witness :
    (10 : ℚ) < 30 ∧ 0 ≤ calculateGDD 25 15 10 30 ∧ calculateGDD 25 15 10 30 = 10 :=
  ⟨by norm_num,
   (calculateGDD_clamped_nonneg 25 15 10 30 (by norm_num)).2.1,
   (calculateGDD_clamped_nonneg 25 15 10 30 (by norm_num)).2.2.2⟩

/- ===================== Precipitation analyzer (weather.js) ===================== -/

/-- One forecast period node as seen by the precipitation extraction functions
in `functions/src/services/weather.js`.  Each field holds the value the
corresponding JavaScript optional chain produces (`none` when the chain hits
an absent property):
`periodTextSummary0` = `period.period?.[0]?.textSummary?.[0]`,
`periodTextForecastName` = `period.period?.textForecastName`,
`abbreviatedTextSummary` = `period.abbreviatedForecast?.[0]?.textSummary?.[0]`,
`textSummary0` = `period.textSummary?.[0]`. -/
structure ForecastPeriodNode where
  periodTextSummary0 : Option String
  periodTextForecastName : Option String
  abbreviatedTextSummary : Option String
  textSummary0 : Option String
deriving DecidableEq, Repr

/-- Probability-of-precipitation record `{value, text}` built by `extractPoP`. -/
structure PoPInfo where
  value : Nat
  text : String
deriving DecidableEq, Repr

/-- Caseless comparison of an initial segment (the `/i` regex flag on ASCII). -/
def startsWithCaseless : List Char → List Char → Bool
  | _, [] => true
  | [], _ :: _ => false
  | c :: cs, d :: ds => c.toLower = d.toLower && startsWithCaseless cs ds

/-- Match `POP\s+(\d+)%` anchored at the head of `l`; returns the captured
digit run.  Maximal munch is equivalent to the regex here because the
character classes of adjacent pieces are disjoint. -/
def popMatchAt (l : List Char) : Option (List Char) :=
  match l with
  | 'P' :: 'O' :: 'P' :: rest =>
    let ws := rest.takeWhile jsIsWs
    let r1 := rest.dropWhile jsIsWs
    if ws.isEmpty then none
    else
      let ds := r1.takeWhile Char.isDigit
      let r2 := r1.dropWhile Char.isDigit
      if ds.isEmpty then none
      else
        match r2 with
        | '%' :: _ => some ds
        | _ => none
  | _ => none

/-- First match of `POP\s+(\d+)%` scanning left to right (`String.match`). -/
def popSearch : List Char → Option (List Char)
  | [] => none
  | c :: rest =>
    match popMatchAt (c :: rest) with
    | some ds => some ds
    | none => popSearch rest

/-- Match `(\d+)\s*percent chance` (case-insensitive) anchored at the head. -/
def percentMatchAt (l : List Char) : Option (List Char) :=
  let ds := l.takeWhile Char.isDigit
  if ds.isEmpty then none
  else
    let r1 := (l.dropWhile Char.isDigit).dropWhile jsIsWs
    if startsWithCaseless r1 "percent chance".data then some ds else none

/-- First match of `(\d+)\s*percent chance/i` scanning left to right. -/
def percentSearch : List Char → Option (List Char)
  | [] => none
  | c :: rest =>
    match percentMatchAt (c :: rest) with
    | some ds => some ds
    | none => percentSearch rest

/-- `extractPoP` from `functions/src/services/weather.js`: first the abbreviated
text is searched for `POP <int>%`, then the summary for `<int> percent chance`,
then the `showers`/`rain` + `chance of`/`periods of` heuristics, defaulting to
0%. -/
def extractPoP (node : ForecastPeriodNode) : PoPInfo :=
  let abbreviatedText := node.abbreviatedTextSummary.getD ""
  match popSearch abbreviatedText.data with
  | some ds => ⟨jsParseIntDigits ds, String.mk ds ++ "% chance"⟩
  | none =>
    let textSummary := node.textSummary0.getD ""
    match percentSearch textSummary.data with
    | some ds => ⟨jsParseIntDigits ds, String.mk ds ++ "% chance"⟩
    | none =>
      if strIncludes textSummary "showers" || strIncludes textSummary "rain" then
        if strIncludes textSummary "chance of" then
          ⟨30, "30% chance (estimated)"⟩
        else if strIncludes textSummary "periods of" then
          ⟨70, "70% chance (estimated)"⟩
        else ⟨0, "No precipitation expected"⟩
      else ⟨0, "No precipitation expected"⟩

/-- An amount range `{min, max, expected}` extracted from the narrative. -/
structure PrecipAmountRange where
  min : Nat
  max : Nat
  expected : Nat
deriving DecidableEq, Repr

/-- The `amounts` record built by `extractPrecipitationAmounts`. -/
structure PrecipAmounts where
  rain : Option PrecipAmountRange
  snow : Option PrecipAmountRange
  total : Option Nat
  unit : String
  timeframe : String
deriving DecidableEq, Repr

/-- Match `(\d+)\s*(?:to\s*(\d+))?\s*<u1><u2>` (case-insensitive) anchored at
the head of `l`; mirrors the regex's preference for matching the optional
`to <int>` group, falling back to the groupless reading when the unit does not
follow. -/
def amtMatchAt (u1 u2 : Char) (l : List Char) : Option (Nat × Option Nat) :=
  let ds1 := l.takeWhile Char.isDigit
  if ds1.isEmpty then none
  else
    let r1 := (l.dropWhile Char.isDigit).dropWhile jsIsWs
    let grouped : Option (Nat × Option Nat) :=
      match r1 with
      | t :: o :: r2 =>
        if t.toLower = 't' && o.toLower = 'o' then
          let r3 := r2.dropWhile jsIsWs
          let ds2 := r3.takeWhile Char.isDigit
          if ds2.isEmpty then none
          else
            let r4 := (r3.dropWhile Char.isDigit).dropWhile jsIsWs
            if startsWithCaseless r4 [u1, u2] then
              some (digitsVal ds1, some (digitsVal ds2))
            else none
        else none
      | _ => none
    match grouped with
    | some m => some m
    | none =>
      if startsWithCaseless r1 [u1, u2] then some (digitsVal ds1, none) else none

/-- First match of the amount regex scanning left to right. -/
def amtSearch (u1 u2 : Char) : List Char → Option (Nat × Option Nat)
  | [] => none
  | c :: rest =>
    match amtMatchAt u1 u2 (c :: rest) with
    | some m => some m
    | none => amtSearch u1 u2 rest

/-- `Math.round((min + max) / 2)` on naturals (ties round up). -/
def midpointRound (mn mx : Nat) : Nat := (mn + mx + 1) / 2

/-- `extractPrecipitationAmounts` from `functions/src/services/weather.js`:
a rain range in mm, a snow range in cm (10 mm water equivalent per cm), and
their combined total. -/
def extractPrecipitationAmounts (node : ForecastPeriodNode) : PrecipAmounts :=
  let textSummary := node.textSummary0.getD ""
  let afterRain : PrecipAmounts :=
    match amtSearch 'm' 'm' textSummary.data with
    | some (d1, od2) =>
      let mn := d1
      let mx := od2.getD d1
      let expected := match od2 with | some _ => midpointRound mn mx | none => d1
      ⟨some ⟨mn, mx, expected⟩, none, some expected, "mm", "period"⟩
    | none => ⟨none, none, none, "mm", "period"⟩
  match amtSearch 'c' 'm' textSummary.data with
  | some (d1, od2) =>
    let mn := d1
    let mx := od2.getD d1
    let expected := match od2 with | some _ => midpointRound mn mx | none => d1
    { afterRain with
        snow := some ⟨mn, mx, expected⟩,
        total := some ((afterRain.total.getD 0) + expected * 10),
        unit := "mm water equivalent" }
  | none => afterRain

/-- `extractPrecipitationType`: substring scan of the lower-cased narrative. -/
def extractPrecipitationType (node : ForecastPeriodNode) : List String :=
  let textSummary := jsToLower (node.textSummary0.getD "")
  let types : List String :=
    (if strIncludes textSummary "freezing rain" then ["freezing_rain"] else [])
    ++ (if strIncludes textSummary "ice pellets" then ["ice_pellets"] else [])
    ++ (if strIncludes textSummary "snow" && !strIncludes textSummary "no snow" then ["snow"] else [])
    ++ (if strIncludes textSummary "rain" && !strIncludes textSummary "freezing rain" then ["rain"] else [])
    ++ (if strIncludes textSummary "drizzle" then ["drizzle"] else [])
    ++ (if strIncludes textSummary "showers" then ["showers"] else [])
    ++ (if strIncludes textSummary "thunderstorm" then ["thunderstorm"] else [])
  if types.length > 0 then types else ["none"]

/-- `extractPrecipitationTiming`: first keyword found in the lower-cased
narrative, defaulting to `throughout period`. -/
def extractPrecipitationTiming (node : ForecastPeriodNode) : String :=
  let textSummary := jsToLower (node.textSummary0.getD "")
  if strIncludes textSummary "ending" then "ending"
  else if strIncludes textSummary "beginning" then "beginning"
  else if strIncludes textSummary "near noon" then "near noon"
  else if strIncludes textSummary "overnight" then "overnight"
  else if strIncludes textSummary "morning" then "morning"
  else if strIncludes textSummary "afternoon" then "afternoon"
  else if strIncludes textSummary "evening" then "evening"
  else "throughout period"

/-- `calculateForecastConfidence`: deterministic by period index. -/
def calculateForecastConfidence (dayIndex : Nat) : String :=
  if dayIndex = 0 then "high"
  else if dayIndex ≤ 2 then "medium-high"
  else if dayIndex ≤ 4 then "medium"
  else "low"

/- ===================== C5: extractPoP rule priority ===================== -/

/-- C5: for every forecast period node, the probability is derived by the first
matching rule in fixed order: (a) `POP <int>%` in the abbreviated summary,
else (b) `<int> percent chance` in the full summary, else (c) for narratives
mentioning `showers`/`rain`, `chance of` gives 30 and `periods of` gives 70,
else (d) 0; the spec's concrete narratives `POP 70%` and a keyword-free
narrative give 70 and 0 respectively. -/
theorem extractPoP_rule_order :
    (∀ node : ForecastPeriodNode,
      (∀ ds, popSearch (node.abbreviatedTextSummary.getD "").data = some ds →
          extractPoP node = ⟨jsParseIntDigits ds, String.mk ds ++ "% chance"⟩)
      ∧ (popSearch (node.abbreviatedTextSummary.getD "").data = none →
          ∀ ds, percentSearch (node.textSummary0.getD "").data = some ds →
          extractPoP node = ⟨jsParseIntDigits ds, String.mk ds ++ "% chance"⟩)
      ∧ (popSearch (node.abbreviatedTextSummary.getD "").data = none →
          percentSearch (node.textSummary0.getD "").data = none →
          (strIncludes (node.textSummary0.getD "") "showers"
            || strIncludes (node.textSummary0.getD "") "rain") = true →
          strIncludes (node.textSummary0.getD "") "chance of" = true →
          (extractPoP node).value = 30)
      ∧ (popSearch (node.abbreviatedTextSummary.getD "").data = none →
          percentSearch (node.textSummary0.getD "").data = none →
          (strIncludes (node.textSummary0.getD "") "showers"
            || strIncludes (node.textSummary0.getD "") "rain") = true →
          strIncludes (node.textSummary0.getD "") "chance of" = false →
          strIncludes (node.textSummary0.getD "") "periods of" = true →
          (extractPoP node).value = 70)
      ∧ (popSearch (node.abbreviatedTextSummary.getD "").data = none →
          percentSearch (node.textSummary0.getD "").data = none →
          ((strIncludes (node.textSummary0.getD "") "showers"
              || strIncludes (node.textSummary0.getD "") "rain") = false
            ∨ (strIncludes (node.textSummary0.getD "") "chance of" = false
              ∧ strIncludes (node.textSummary0.getD "") "periods of" = false)) →
          (extractPoP node).value = 0))
    ∧ (extractPoP ⟨none, none, some "POP 70%", none⟩).value = 70
    ∧ (extractPoP ⟨none, none, none, some "Sunny"⟩).value = 0 := by
  refine ⟨fun node => ⟨?_, ?_, ?_, ?_, ?_⟩, by decide, by decide⟩
  · intro ds h
    simp only [extractPoP, h]
  · intro h0 ds h
    simp only [extractPoP, h0, h]
  · intro h0 h1 h2 h3
    simp only [extractPoP, h0, h1, h2, h3]
    rfl
  · intro h0 h1 h2 h3 h4
    simp only [extractPoP, h0, h1, h2, h3, h4]
    rfl
  · intro h0 h1 h2
    rcases h2 with h2 | ⟨h2a, h2b⟩
    · simp only [extractPoP, h0, h1, h2]
      rfl
    · simp only [extractPoP, h0, h1, h2a, h2b]
      cases hsr : (strIncludes (node.textSummary0.getD "") "showers"
          || strIncludes (node.textSummary0.getD "") "rain") <;> rfl

/-- Witness for C5: rule (a) applied at a concrete node. -/
theorem extractPoP_rule_order_witness :
    popSearch ("Cloudy. POP 40%".data) = some ['4', '0'] ∧
    extractPoP ⟨none, none, some "Cloudy. POP 40%", some "Cloudy"⟩ = ⟨40, "40% chance"⟩ :=
  ⟨by decide,
   (extractPoP_rule_order.1 ⟨none, none, some "Cloudy. POP 40%", some "Cloudy"⟩).1
     ['4', '0'] (by decide)⟩

/- ===================== C6: findDryWindows ===================== -/

instance : Inhabited PoPInfo := ⟨⟨0, ""⟩⟩

instance : Inhabited PrecipAmounts := ⟨⟨none, none, none, "", ""⟩⟩

/-- One entry of the detailed precipitation forecast, as built per period by
`extractPrecipitationData` in `functions/src/services/weather.js`. -/
structure PrecipData where
  period : String
  probabilityOfPrecip : PoPInfo
  amounts : PrecipAmounts
  precipitationType : List String
  timing : String
  confidence : String
deriving DecidableEq, Repr, Inhabited

/-- JavaScript `a || b` on a nullable string (empty string is falsy). -/
def jsStrOr (a : Option String) (b : String) : String :=
  match a with
  | some t => if t.isEmpty then b else t
  | none => b

/-- The per-period record assembled by `extractPrecipitationData`. -/
def mkPrecipData (index : Nat) (node : ForecastPeriodNode) : PrecipData :=
  { period := jsStrOr node.periodTextSummary0
      (jsStrOr node.periodTextForecastName "Unknown Period")
    probabilityOfPrecip := extractPoP node
    amounts := extractPrecipitationAmounts node
    precipitationType := extractPrecipitationType node
    timing := extractPrecipitationTiming node
    confidence := calculateForecastConfidence index }

/-- The dry-period test used by `findDryWindows`:
`probabilityOfPrecip.value < 30 && (!amounts.total || amounts.total < 2)`
(a present total of `0` is falsy in JavaScript, hence also dry). -/
def isDryPeriod (f : PrecipData) : Bool :=
  decide (f.probabilityOfPrecip.value < 30) &&
    (match f.amounts.total with
     | none => true
     | some t => decide (t = 0) || decide (t < 2))

/-- A closed dry window `{start, startPeriod, length, end, endPeriod}`
(`end` is rendered as `stop`). -/
structure DryWindow where
  start : Nat
  startPeriod : String
  length : Nat
  stop : Nat
  stopPeriod : String
deriving DecidableEq, Repr

/-- The in-progress window held in `currentWindow` while scanning. -/
structure OpenWindow where
  start : Nat
  startPeriod : String
  len : Nat
deriving DecidableEq, Repr

/-- The `forEach` scan of `findDryWindows`, with the enclosing array `all` in
scope for the label lookups `precipitationForecasts[index - 1]` and
`precipitationForecasts[precipitationForecasts.length - 1]` that the
JavaScript closure performs when a window is closed. -/
def findDryWindowsGo (all : List PrecipData) :
    List PrecipData → Nat → Option OpenWindow → List DryWindow
  | [], _, cur =>
    match cur with
    | some w =>
      if 2 ≤ w.len then
        [⟨w.start, w.startPeriod, w.len, all.length - 1, (all.getLastD default).period⟩]
      else []
    | none => []
  | f :: rest, idx, cur =>
    if isDryPeriod f then
      match cur with
      | none => findDryWindowsGo all rest (idx + 1) (some ⟨idx, f.period, 1⟩)
      | some w =>
        findDryWindowsGo all rest (idx + 1) (some ⟨w.start, w.startPeriod, w.len + 1⟩)
    else
      match cur with
      | some w =>
        if 2 ≤ w.len then
          ⟨w.start, w.startPeriod, w.len, idx - 1, (all.getD (idx - 1) default).period⟩
            :: findDryWindowsGo all rest (idx + 1) none
        else findDryWindowsGo all rest (idx + 1) none
      | none => findDryWindowsGo all rest (idx + 1) none

/-- `findDryWindows` from `functions/src/services/weather.js`. -/
def findDryWindows (ps : List PrecipData) : List DryWindow :=
  findDryWindowsGo ps ps 0 none

/-- Modelled from the spec's words (§4.3 dry-window detection): scan the
ordered forecast and report every maximal run of at least two consecutive dry
periods with its start/end indices and period labels, including a run still
open at the end of the sequence. -/
def dryWindowsSpecGo : List PrecipData → Nat → List DryWindow
  | [], _ => []
  | f :: rest, i =>
    if isDryPeriod f then
      (if 2 ≤ (f :: rest.takeWhile isDryPeriod).length then
        [⟨i, f.period, (f :: rest.takeWhile isDryPeriod).length,
          i + (f :: rest.takeWhile isDryPeriod).length - 1,
          ((f :: rest.takeWhile isDryPeriod).getLastD default).period⟩]
       else [])
        ++ dryWindowsSpecGo (rest.dropWhile isDryPeriod)
            (i + (f :: rest.takeWhile isDryPeriod).length)
    else dryWindowsSpecGo rest (i + 1)
termination_by l _ => l.length
decreasing_by
  · simp only [List.length_cons]
    have := (List.dropWhile_suffix (l := rest) isDryPeriod).length_le
    omega
  · simp only [List.length_cons]
    omega

/-- The spec-side dry-window list for a whole forecast. -/
def dryWindowsSpec (ps : List PrecipData) : List DryWindow :=
  dryWindowsSpecGo ps 0

/-- `getLastD` is the lookup at the last index. -/
theorem getLastD_eq_getD {α : Type} (l : List α) (d : α) :
    l.getLastD d = l.getD (l.length - 1) d := by
  rw [List.getLastD_eq_getLast?, List.getLast?_eq_getElem?, List.getD_eq_getElem?_getD]

/-- Dropping one more element after a `drop` that exposed a cons cell. -/
theorem drop_cons_next {α : Type} (l : List α) (n : Nat) (f : α) (rest : List α)
    (h : l.drop n = f :: rest) : l.drop (n + 1) = rest := by
  rw [← List.drop_drop]
  simp [h]

/-- The element exposed at the head of a `drop` is the lookup at that index. -/
theorem getD_of_drop {α : Type} (l : List α) (n : Nat) (f : α) (rest : List α) (d : α)
    (h : l.drop n = f :: rest) : l.getD n d = f := by
  rw [List.getD_eq_getElem?_getD, ← List.head?_drop, h]
  rfl

/-- The scan of `findDryWindowsGo` computes exactly the spec-side maximal dry
runs: with no open window it agrees with `dryWindowsSpecGo`, and with an open
window of length `w.len` ending just before position `i` it emits the
continuation of that run followed by the runs of the remainder. -/
theorem fdw_eq_spec_aux : ∀ n : Nat, ∀ (all l : List PrecipData) (i : Nat),
    l.length = n → all.drop i = l → i ≤ all.length →
    (findDryWindowsGo all l i none = dryWindowsSpecGo l i) ∧
    (∀ w : OpenWindow, 1 ≤ w.len → i = w.start + w.len →
      findDryWindowsGo all l i (some w) =
        (if 2 ≤ w.len + (l.takeWhile isDryPeriod).length then
          [⟨w.start, w.startPeriod, w.len + (l.takeWhile isDryPeriod).length,
            i + (l.takeWhile isDryPeriod).length - 1,
            ((l.takeWhile isDryPeriod).getLastD (all.getD (i - 1) default)).period⟩]
         else [])
          ++ dryWindowsSpecGo (l.dropWhile isDryPeriod)
              (i + (l.takeWhile isDryPeriod).length)) := by
  intro n
  induction n using Nat.strong_induction_on with
  | _ n ih =>
    intro all l i hlen hdrop hile
    cases l with
    | nil =>
      have hieq : i = all.length := by
        have h0 := congrArg List.length hdrop
        simp only [List.length_drop, List.length_nil] at h0
        omega
      constructor
      · simp [findDryWindowsGo, dryWindowsSpecGo]
      · intro w hw hiw
        simp only [findDryWindowsGo, dryWindowsSpecGo, List.takeWhile_nil,
          List.dropWhile_nil, List.length_nil, Nat.add_zero, List.getLastD_nil,
          List.append_nil]
        rw [getLastD_eq_getD, hieq]
    | cons f rest =>
      have hlt : i < all.length := by
        by_contra hc
        push_neg at hc
        have hnil : all.drop i = [] := List.drop_eq_nil_of_le hc
        rw [hdrop] at hnil
        exact List.cons_ne_nil f rest hnil
      have hrest : all.drop (i + 1) = rest := drop_cons_next all i f rest hdrop
      have hfi : all.getD i default = f := getD_of_drop all i f rest default hdrop
      have hlen' : rest.length < n := by
        simp only [List.length_cons] at hlen
        omega
      have IH := ih rest.length hlen' all rest (i + 1) rfl hrest (by omega)
      by_cases hdry : isDryPeriod f
      · constructor
        · have h2 := IH.2 ⟨i, f.period, 1⟩ (by norm_num) (by simp)
          simp only [findDryWindowsGo, hdry, if_true]
          rw [h2]
          rw [dryWindowsSpecGo]
          simp only [hdry, if_true, List.takeWhile_cons_of_pos hdry,
            List.dropWhile_cons_of_pos hdry, List.length_cons, Nat.add_sub_cancel]
          have hlab : (rest.takeWhile isDryPeriod).getLastD (all.getD i default)
              = (f :: rest.takeWhile isDryPeriod).getLastD default := by
            rw [List.getLastD_cons, hfi]
          rw [hlab]
          rw [show 1 + (rest.takeWhile isDryPeriod).length
              = (rest.takeWhile isDryPeriod).length + 1 from by omega]
          rw [show i + 1 + (rest.takeWhile isDryPeriod).length
              = i + ((rest.takeWhile isDryPeriod).length + 1) from by omega]
        · intro w hw hiw
          have h2 := IH.2 ⟨w.start, w.startPeriod, w.len + 1⟩
            (by show 1 ≤ w.len + 1; omega)
            (by show i + 1 = w.start + (w.len + 1); omega)
          simp only [findDryWindowsGo, hdry, if_true]
          rw [h2]
          simp only [List.takeWhile_cons_of_pos hdry, List.dropWhile_cons_of_pos hdry,
            List.length_cons, Nat.add_sub_cancel]
          have hlab : (rest.takeWhile isDryPeriod).getLastD (all.getD i default)
              = ((f :: rest.takeWhile isDryPeriod)).getLastD (all.getD (i - 1) default) := by
            rw [List.getLastD_cons, hfi]
          rw [hlab]
          rw [show w.len + 1 + (rest.takeWhile isDryPeriod).length
              = w.len + ((rest.takeWhile isDryPeriod).length + 1) from by omega]
          rw [show i + 1 + (rest.takeWhile isDryPeriod).length
              = i + ((rest.takeWhile isDryPeriod).length + 1) from by omega]
      · constructor
        · simp only [findDryWindowsGo, hdry, if_false]
          rw [IH.1]
          rw [dryWindowsSpecGo]
          simp [hdry]
        · intro w hw hiw
          simp only [findDryWindowsGo, hdry, if_false]
          rw [IH.1]
          simp only [List.takeWhile_cons_of_neg hdry, List.dropWhile_cons_of_neg hdry,
            List.length_nil, Nat.add_zero, List.getLastD_nil]
          rw [dryWindowsSpecGo]
          simp only [hdry, if_false]
          by_cases hc : 2 ≤ w.len
          · simp [hc]
          · simp [hc]

/-- Every spec-side window starts at or after the scan position and carries
consistent indices: `stop + 1 = start + length` with `length ≥ 2`. -/
theorem dryWindowsSpecGo_props : ∀ n : Nat, ∀ (l : List PrecipData) (i : Nat),
    l.length = n → ∀ w ∈ dryWindowsSpecGo l i,
    i ≤ w.start ∧ w.stop + 1 = w.start + w.length ∧ 2 ≤ w.length := by
  intro n
  induction n using Nat.strong_induction_on with
  | _ n ih =>
    intro l i hlen
    cases l with
    | nil =>
      intro w hw
      rw [dryWindowsSpecGo] at hw
      exact absurd hw (List.not_mem_nil w)
    | cons f rest =>
      have hlen' : rest.length < n := by
        simp only [List.length_cons] at hlen
        omega
      by_cases hdry : isDryPeriod f
      · intro w hw
        rw [dryWindowsSpecGo] at hw
        simp only [hdry, if_true] at hw
        rcases List.mem_append.1 hw with h1 | h2
        · by_cases hk : 2 ≤ (f :: rest.takeWhile isDryPeriod).length
          · simp only [hk, if_true, List.mem_singleton] at h1
            subst h1
            refine ⟨le_refl i, ?_, ?_⟩
            · simp only [List.length_cons] at hk ⊢
              omega
            · exact hk
          · rw [if_neg hk] at h1
            exact absurd h1 (List.not_mem_nil w)
        · have hlend : (rest.dropWhile isDryPeriod).length < n := by
            have := (List.dropWhile_suffix (l := rest) isDryPeriod).length_le
            omega
          have hp := ih _ hlend (rest.dropWhile isDryPeriod)
            (i + (f :: rest.takeWhile isDryPeriod).length) rfl w h2
          exact ⟨by omega, hp.2.1, hp.2.2⟩
      · intro w hw
        rw [dryWindowsSpecGo] at hw
        simp only [hdry, if_false] at hw
        have hp := ih _ hlen' rest (i + 1) rfl w hw
        exact ⟨by omega, hp.2.1, hp.2.2⟩

/-- Spec-side windows are listed left to right without overlap. -/
theorem dryWindowsSpecGo_chain : ∀ n : Nat, ∀ (l : List PrecipData) (i : Nat),
    l.length = n →
    List.Chain' (fun a b => a.stop < b.start) (dryWindowsSpecGo l i) := by
  intro n
  induction n using Nat.strong_induction_on with
  | _ n ih =>
    intro l i hlen
    cases l with
    | nil =>
      rw [dryWindowsSpecGo]
      exact List.chain'_nil
    | cons f rest =>
      have hlen' : rest.length < n := by
        simp only [List.length_cons] at hlen
        omega
      by_cases hdry : isDryPeriod f
      · rw [dryWindowsSpecGo]
        simp only [hdry, if_true]
        have hlend : (rest.dropWhile isDryPeriod).length < n := by
          have := (List.dropWhile_suffix (l := rest) isDryPeriod).length_le
          omega
        have hchain := ih _ hlend (rest.dropWhile isDryPeriod)
          (i + (f :: rest.takeWhile isDryPeriod).length) rfl
        by_cases hk : 2 ≤ (f :: rest.takeWhile isDryPeriod).length
        · simp only [hk, if_true, List.singleton_append]
          rw [List.chain'_cons']
          refine ⟨?_, hchain⟩
          intro y hy
          have hym := List.mem_of_mem_head? hy
          have hp := dryWindowsSpecGo_props _ _ _ rfl y hym
          simp only [List.length_cons] at hp ⊢
          omega
        · simp only [hk, if_false, List.nil_append]
          exact hchain
      · rw [dryWindowsSpecGo]
        simp only [hdry, if_false]
        exact ih _ hlen' rest (i + 1) rfl

/-- A concretely dry example period (no precipitation expected). -/
def dryEx (name : String) : PrecipData :=
  ⟨name, ⟨0, "No precipitation expected"⟩, ⟨none, none, none, "mm", "period"⟩,
    ["none"], "throughout period", "high"⟩

/-- A concretely wet example period (80% probability, 5 mm expected). -/
def wetEx (name : String) : PrecipData :=
  ⟨name, ⟨80, "80% chance"⟩, ⟨some ⟨5, 5, 5⟩, none, some 5, "mm", "period"⟩,
    ["rain"], "throughout period", "high"⟩

/-- C6: a period is dry iff its probability is below 30% and its total amount
is unknown or below 2 mm; `findDryWindows` returns exactly the spec-side
maximal runs of at least two consecutive dry periods (including a run still
open at the end), with consistent start/end indices and non-overlapping
left-to-right windows; the 5-period example [dry, dry, wet, dry, dry] yields
exactly the windows [0,1] and [3,4], and an isolated dry period yields none. -/
theorem findDryWindows_maximal_runs :
    (∀ f : PrecipData, isDryPeriod f = true ↔
      (f.probabilityOfPrecip.value < 30 ∧
        (f.amounts.total = none ∨ ∃ t, f.amounts.total = some t ∧ t < 2)))
    ∧ (∀ ps : List PrecipData, findDryWindows ps = dryWindowsSpec ps)
    ∧ (∀ ps : List PrecipData, ∀ w ∈ findDryWindows ps,
        2 ≤ w.length ∧ w.stop + 1 = w.start + w.length)
    ∧ (∀ ps : List PrecipData,
        List.Chain' (fun a b => a.stop < b.start) (findDryWindows ps))
    ∧ findDryWindows [dryEx "P0", dryEx "P1", wetEx "P2", dryEx "P3", dryEx "P4"]
        = [⟨0, "P0", 2, 1, "P1"⟩, ⟨3, "P3", 2, 4, "P4"⟩]
    ∧ findDryWindows [wetEx "P0", dryEx "P1", wetEx "P2"] = [] := by
  have heq : ∀ ps : List PrecipData, findDryWindows ps = dryWindowsSpec ps := by
    intro ps
    exact (fdw_eq_spec_aux ps.length ps ps 0 rfl (by simp) (by simp)).1
  refine ⟨?_, heq, ?_, ?_, by decide, by decide⟩
  · intro f
    constructor
    · intro h
      simp only [isDryPeriod, Bool.and_eq_true, decide_eq_true_eq] at h
      refine ⟨h.1, ?_⟩
      rcases hft : f.amounts.total with _ | t
      · exact Or.inl rfl
      · right
        have h2 := h.2
        rw [hft] at h2
        simp only [Bool.or_eq_true, decide_eq_true_eq] at h2
        exact ⟨t, rfl, by omega⟩
    · intro hc
      simp only [isDryPeriod, Bool.and_eq_true, decide_eq_true_eq]
      refine ⟨hc.1, ?_⟩
      rcases hc.2 with h2 | ⟨t, ht, hlt⟩
      · rw [h2]
      · rw [ht]
        simp only [Bool.or_eq_true, decide_eq_true_eq]
        omega
  · intro ps w hw
    rw [heq] at hw
    have hp := dryWindowsSpecGo_props ps.length ps 0 rfl w hw
    exact ⟨hp.2.2, hp.2.1⟩
  · intro ps
    rw [heq]
    exact dryWindowsSpecGo_chain ps.length ps 0 rfl

/-- Witness for C6: the [dry, dry] forecast produces the single window
[0, 1] and its indices satisfy the proved invariants. -/
theorem findDryWindows_maximal_runs_witness :
    ((⟨0, "A", 2, 1, "B"⟩ : DryWindow) ∈ findDryWindows [dryEx "A", dryEx "B"]) ∧
    2 ≤ (⟨0, "A", 2, 1, "B"⟩ : DryWindow).length ∧
    (⟨0, "A", 2, 1, "B"⟩ : DryWindow).stop + 1
      = (⟨0, "A", 2, 1, "B"⟩ : DryWindow).start + (⟨0, "A", 2, 1, "B"⟩ : DryWindow).length :=
  ⟨by decide,
   findDryWindows_maximal_runs.2.2.1 [dryEx "A", dryEx "B"] ⟨0, "A", 2, 1, "B"⟩ (by decide)⟩

/- ===================== Bulletin parse model (weather.js) ===================== -/

/-- `parseFloat` applied to a possibly-absent string
(`parseFloat(undefined)` is NaN). -/
def jsParseFloatOpt (o : Option String) : JsNum :=
  match o with
  | none => .nan
  | some s => jsParseFloat s

/-- JavaScript `s[0]` on a string: the first character as a one-character
string, or `undefined` on the empty string. -/
def jsStrIdx0 (s : String) : Option String :=
  match s.data with
  | [] => none
  | c :: _ => some ⟨[c]⟩

/-- JavaScript `a - b` for a possibly-NaN minuend. -/
def jsSub (a : JsNum) (b : ℚ) : JsNum :=
  match a with
  | .nan => .nan
  | .num q => .num (q - b)

/-- JavaScript `a < b` for a possibly-NaN left operand. -/
def jsLt (a : JsNum) (b : ℚ) : Bool :=
  match a with
  | .nan => false
  | .num q => q < b

/-- An element or a list of elements: with `explicitArray: false`, xml2js
yields a plain object for a single child and an array for repeated children
(the code tests `Array.isArray`). -/
inductive SingleOrMany (α : Type) where
  | one : α → SingleOrMany α
  | many : List α → SingleOrMany α
deriving DecidableEq, Repr

/-- A markup node whose text content is read through `._` (text may be
absent). -/
structure RawTextVal where
  txt : Option String
deriving DecidableEq, Repr

/-- The `location.name` node: text content plus `lat`/`lon` attributes
(merged by `mergeAttrs`). -/
structure RawName where
  txt : Option String
  lat : Option String
  lon : Option String
deriving DecidableEq, Repr

/-- The `location.province` node, read through `.code`. -/
structure RawProvince where
  code : Option String
deriving DecidableEq, Repr

/-- The `location` section. -/
structure RawLocation where
  name : Option RawName
  province : Option RawProvince
deriving DecidableEq, Repr

/-- The `currentConditions.wind` node. -/
structure RawWind where
  speed : Option RawTextVal
  direction : Option String
deriving DecidableEq, Repr

/-- One `dateTime` entry (read through `.textSummary`). -/
structure RawDateTime where
  textSummary : Option String
deriving DecidableEq, Repr

/-- The `currentConditions` section.  `dateTime` repeats in the bulletin, so
it parses as an array. -/
structure RawCurrent where
  temperature : Option RawTextVal
  condition : Option String
  relativeHumidity : Option RawTextVal
  wind : Option RawWind
  pressure : Option RawTextVal
  visibility : Option RawTextVal
  dateTime : Option (List RawDateTime)
deriving DecidableEq, Repr

/-- One tagged entry of `temperatures.temperature`; `cls` is the `class`
attribute merged by `mergeAttrs`. -/
structure TempTagged where
  cls : Option String
  txt : Option String
deriving DecidableEq, Repr

/-- The `temperatures` node of a forecast period. -/
structure RawTemps where
  temperature : Option (SingleOrMany TempTagged)
deriving DecidableEq, Repr

/-- The `period` node of a forecast period (single element: an object). -/
structure RawPeriod where
  textForecastName : Option String
deriving DecidableEq, Repr

/-- The `abbreviatedForecast` node (single element per period: an object,
never an array, so the `?.[0]` chains in the precipitation extractors see
`undefined`). -/
structure RawAbbrev where
  pop : Option RawTextVal
  textSummary : Option String
deriving DecidableEq, Repr

/-- One forecast period of the bulletin. `textSummary` is a single text
element, hence a plain string. -/
structure RawForecastNode where
  period : Option RawPeriod
  textSummary : Option String
  temperatures : Option RawTemps
  abbreviatedForecast : Option RawAbbrev
deriving DecidableEq, Repr

/-- The `forecastGroup` section; `forecast` repeats, but a degenerate bulletin
can yield a single object, hence `SingleOrMany`. -/
structure RawForecastGroup where
  forecast : Option (SingleOrMany RawForecastNode)
deriving DecidableEq, Repr

/-- The `almanac.temperature` aggregates. -/
structure RawAlmanacTemps where
  extremeMax : Option RawTextVal
  extremeMin : Option RawTextVal
  normalMax : Option RawTextVal
  normalMin : Option RawTextVal
deriving DecidableEq, Repr

/-- The `almanac` section. -/
structure RawAlmanac where
  temperature : Option RawAlmanacTemps
  pop : Option RawTextVal
deriving DecidableEq, Repr

/-- The `siteData` document root. -/
structure SiteData where
  location : Option RawLocation
  currentConditions : Option RawCurrent
  forecastGroup : Option RawForecastGroup
  almanac : Option RawAlmanac
deriving DecidableEq, Repr

/-- The parsed bulletin document (`result.siteData`). -/
structure RawDoc where
  siteData : Option SiteData
deriving DecidableEq, Repr

/-- The `location` part of the snapshot built by `fetchECCCWeather`. -/
structure LocationOut where
  city : Option String
  province : Option String
  lat : JsNum
  lon : JsNum
deriving DecidableEq, Repr

/-- The `current` part of the snapshot.  The parser never writes `dewpoint`;
it is carried (always `none` from the parser) because `calculateFrostRisk`
reads it. -/
structure CurrentOut where
  temperature : JsNum
  condition : Option String
  humidity : JsNum
  windSpeed : JsNum
  windDirection : Option String
  pressure : JsNum
  visibility : JsNum
  observationTime : Option String
  dewpoint : Option JsNum
deriving DecidableEq, Repr

/-- The `temperature {high, low}` record of one snapshot forecast period
(`null` entries are `none`). -/
structure FcTemps where
  high : Option JsNum
  low : Option JsNum
deriving DecidableEq, Repr

/-- One snapshot forecast period built by `extractForecast`. -/
structure ForecastEntry where
  period : Option String
  summary : Option String
  temperature : FcTemps
  pop : String
deriving DecidableEq, Repr

/-- The `almanac` part of the snapshot. -/
structure AlmanacOut where
  extremeMax : Option JsNum
  extremeMin : Option JsNum
  normalMax : Option JsNum
  normalMin : Option JsNum
  pop : Option String
deriving DecidableEq, Repr

/-- The fieldwork recommendation record. -/
structure FieldworkRec where
  status : String
  message : String
  reasoning : String
deriving DecidableEq, Repr

/-- The `precipitation` enrichment added by `enhanceWeatherWithPrecipitation`. -/
structure PrecipOut where
  forecast : List PrecipData
  next24Hours : Nat
  next3Days : Nat
  next7Days : Nat
  dryWindows : List DryWindow
  fieldworkRecommendation : FieldworkRec
deriving DecidableEq, Repr

/-- The full value returned by `fetchECCCWeather` (`precipitation` is `none`
until the enhancement step writes it). -/
structure WeatherData where
  location : LocationOut
  current : CurrentOut
  forecast : List ForecastEntry
  almanac : AlmanacOut
  timestamp : String
  source : String
  precipitation : Option PrecipOut
deriving DecidableEq, Repr

/-- A required JavaScript property access: reading a property of `undefined`
throws a `TypeError`, which the surrounding `catch` converts into a parse
failure. -/
def jsReq {α : Type} (o : Option α) : Except String α :=
  match o with
  | none => .error "TypeError: cannot read properties of undefined"
  | some a => .ok a

/-- The conditional `x?._ ? parseFloat(x._) : null` used for almanac values
and forecast highs/lows (`o` is the value of the `?._` chain): a present
non-empty text is parsed, anything else is `null`. -/
def jsTruthyTextToNum (o : Option String) : Option JsNum :=
  match o with
  | some s => if s.isEmpty then none else some (jsParseFloat s)
  | none => none

/-- `extractForecast` from `functions/src/services/weather.js`: first five
periods; high/low located by `class` tag (an untagged single entry yields
neither); `pop` defaults to `"0"`. -/
def extractForecast (fg : Option RawForecastGroup) : List ForecastEntry :=
  match fg with
  | none => []
  | some g =>
    match g.forecast with
    | none => []
    | some entry =>
      let forecasts := match entry with
        | .one fc => [fc]
        | .many l => l
      (forecasts.take 5).map (fun fc =>
        let highLow : Option TempTagged × Option TempTagged :=
          match fc.temperatures with
          | none => (none, none)
          | some temps =>
            match temps.temperature with
            | none => (none, none)
            | some (.many arr) =>
              (arr.find? (fun t => t.cls == some "high"),
               arr.find? (fun t => t.cls == some "low"))
            | some (.one t) =>
              if t.cls == some "high" then (some t, none)
              else if t.cls == some "low" then (none, some t)
              else (none, none)
        { period := fc.period.bind (fun p => p.textForecastName)
          summary := fc.textSummary
          temperature :=
            { high := jsTruthyTextToNum (highLow.1.bind (fun t => t.txt))
              low := jsTruthyTextToNum (highLow.2.bind (fun t => t.txt)) }
          pop :=
            match fc.abbreviatedForecast with
            | some ab =>
              match ab.pop with
              | some p =>
                match p.txt with
                | some s => if s.isEmpty then "0" else s
                | none => "0"
              | none => "0"
            | none => "0" })

/-- The values the optional chains of the precipitation extractors produce on
a pipeline forecast node: `period` and `abbreviatedForecast` are single
objects, so `?.[0]` yields `undefined`; `textSummary` is a string, so `[0]`
yields its first character. -/
def toPeriodNode (fc : RawForecastNode) : ForecastPeriodNode :=
  { periodTextSummary0 := none
    periodTextForecastName := fc.period.bind (fun p => p.textForecastName)
    abbreviatedTextSummary := none
    textSummary0 := fc.textSummary.bind jsStrIdx0 }

/-- `extractPrecipitationData` from `functions/src/services/weather.js`: one
record per period, order preserving.  Unlike `extractForecast`, it reads
`forecastGroup.forecast` without a guard, so a missing `forecastGroup` throws. -/
def extractPrecipitationData (fg : Option RawForecastGroup) :
    Except String (List PrecipData) :=
  match fg with
  | none => .error "TypeError: cannot read properties of undefined"
  | some g =>
    .ok (
      let forecasts := match g.forecast with
        | none => []
        | some (.one fc) => [fc]
        | some (.many l) => l
      forecasts.enum.map (fun p => mkPrecipData p.1 (toPeriodNode p.2)))

/-- `generateFieldworkRecommendation` from `functions/src/services/weather.js`. -/
def generateFieldworkRecommendation (forecasts : List PrecipData)
    (dryWindows : List DryWindow) : FieldworkRec :=
  let next48Hours := forecasts.take 4
  let significantRainComing := next48Hours.any (fun f =>
    match f.amounts.total with
    | some t => decide (t ≠ 0) && decide (10 < t)
    | none => false)
  if significantRainComing then
    ⟨"urgent", "Complete critical fieldwork within next 24 hours if possible",
      "Significant precipitation expected"⟩
  else
    match dryWindows with
    | w :: _ =>
      if w.start = 0 then
        ⟨"favorable",
          "Good conditions for fieldwork over next " ++ toString w.length ++ " periods",
          "Extended dry window available"⟩
      else
        ⟨"plan_ahead", "Mixed conditions - plan fieldwork around dry windows",
          "Intermittent precipitation expected"⟩
    | [] =>
      ⟨"plan_ahead", "Mixed conditions - plan fieldwork around dry windows",
        "Intermittent precipitation expected"⟩

/-- `enhanceWeatherWithPrecipitation` from `functions/src/services/weather.js`. -/
def enhanceWeatherWithPrecipitation (weatherData : WeatherData)
    (precipitationForecasts : List PrecipData) : WeatherData :=
  let next7DaysTotal :=
    ((precipitationForecasts.take 7).map (fun day => day.amounts.total.getD 0)).sum
  let next3DaysTotal :=
    ((precipitationForecasts.take 3).map (fun day => day.amounts.total.getD 0)).sum
  let dryWindows := findDryWindows precipitationForecasts
  { weatherData with
      precipitation := some
        { forecast := precipitationForecasts
          next24Hours :=
            match precipitationForecasts.head? with
            | some day => day.amounts.total.getD 0
            | none => 0
          next3Days := next3DaysTotal
          next7Days := next7DaysTotal
          dryWindows := dryWindows
          fieldworkRecommendation :=
            generateFieldworkRecommendation precipitationForecasts dryWindows } }

/-- The parse portion of `fetchECCCWeather` (`functions/src/services/weather.js`
lines 26-65) as a function of the parsed document and the clock reading
`new Date().toISOString()`.  A thrown `TypeError` on a required property and
the explicit structure check both surface as `Except.error` (the JavaScript
`catch` re-wraps either message). -/
def parseECCCWeather (doc : RawDoc) (nowIso : String) : Except String WeatherData := do
  let sd ← match doc.siteData with
    | none => Except.error "Weather data structure is invalid or missing key elements."
    | some sd => Except.ok sd
  let loc ← match sd.location with
    | none => Except.error "Weather data structure is invalid or missing key elements."
    | some loc => Except.ok loc
  let cur ← match sd.currentConditions with
    | none => Except.error "Weather data structure is invalid or missing key elements."
    | some cur => Except.ok cur
  let nameObj ← jsReq loc.name
  let provObj ← jsReq loc.province
  let tempObj ← jsReq cur.temperature
  let humObj ← jsReq cur.relativeHumidity
  let windObj ← jsReq cur.wind
  let speedObj ← jsReq windObj.speed
  let pressObj ← jsReq cur.pressure
  let visObj ← jsReq cur.visibility
  let dtArr ← jsReq cur.dateTime
  let dt1 ← jsReq (dtArr.get? 1)
  let weatherData : WeatherData :=
    { location :=
        { city := nameObj.txt
          province := provObj.code
          lat := jsParseFloatOpt nameObj.lat
          lon := jsParseFloatOpt nameObj.lon }
      current :=
        { temperature := jsParseFloatOpt tempObj.txt
          condition := cur.condition
          humidity := jsParseFloatOpt humObj.txt
          windSpeed := jsParseFloatOpt speedObj.txt
          windDirection := windObj.direction
          pressure := jsParseFloatOpt pressObj.txt
          visibility := jsParseFloatOpt visObj.txt
          observationTime := dt1.textSummary
          dewpoint := none }
      forecast := extractForecast sd.forecastGroup
      almanac :=
        { extremeMax := jsTruthyTextToNum (sd.almanac.bind
            (fun a => a.temperature.bind (fun t => t.extremeMax.bind (fun v => v.txt))))
          extremeMin := jsTruthyTextToNum (sd.almanac.bind
            (fun a => a.temperature.bind (fun t => t.extremeMin.bind (fun v => v.txt))))
          normalMax := jsTruthyTextToNum (sd.almanac.bind
            (fun a => a.temperature.bind (fun t => t.normalMax.bind (fun v => v.txt))))
          normalMin := jsTruthyTextToNum (sd.almanac.bind
            (fun a => a.temperature.bind (fun t => t.normalMin.bind (fun v => v.txt))))
          pop :=
            match sd.almanac.bind (fun a => a.pop.bind (fun p => p.txt)) with
            | some s => if s.isEmpty then none else some s
            | none => none }
      timestamp := nowIso
      source := "ECCC"
      precipitation := none }
  let precipitationForecasts ← extractPrecipitationData sd.forecastGroup
  pure (enhanceWeatherWithPrecipitation weatherData precipitationForecasts)

deriving instance DecidableEq for Except

/- ===================== C2: parse failure conditions ===================== -/

/-- The nodes whose absence makes the bulletin parse throw: the explicit
structure check (`siteData`, `location`, `currentConditions`) plus every node
the snapshot construction dereferences without an optional chain
(`location.name`, `location.province`, `temperature`, `relativeHumidity`,
`wind`, `wind.speed`, `pressure`, `visibility`, `dateTime[1]`) and the
unguarded `forecastGroup.forecast` read in `extractPrecipitationData`. -/
def requiredBulletinNodes (doc : RawDoc) : Bool :=
  match doc.siteData with
  | none => false
  | some sd =>
    match sd.location, sd.currentConditions with
    | some loc, some cur =>
      loc.name.isSome && loc.province.isSome && cur.temperature.isSome &&
        cur.relativeHumidity.isSome &&
        (match cur.wind with
         | some w => w.speed.isSome
         | none => false) &&
        cur.pressure.isSome && cur.visibility.isSome &&
        (match cur.dateTime with
         | some (_ :: _ :: _) => true
         | _ => false) &&
        sd.forecastGroup.isSome
    | _, _ => false

/-- A bulletin whose current temperature text cannot be coerced to a number
(every required node present). -/
def nanTempDoc : RawDoc :=
  ⟨some
    { location := some
        { name := some ⟨some "Winnipeg", some "49.9", some "-97.1"⟩
          province := some ⟨some "MB"⟩ }
      currentConditions := some
        { temperature := some ⟨some "N/A"⟩
          condition := some "Cloudy"
          relativeHumidity := some ⟨some "80"⟩
          wind := some ⟨some ⟨some "10"⟩, some "NW"⟩
          pressure := some ⟨some "101.3"⟩
          visibility := some ⟨some "16"⟩
          dateTime := some [⟨some "2024-05-05T12:00:00Z"⟩, ⟨some "Sunday May 5"⟩] }
      forecastGroup := some ⟨none⟩
      almanac := none }⟩

/-- C2 counterexample: a bulletin whose temperature text `"N/A"` cannot be
coerced to a number still parses successfully — the snapshot is produced with
`current.temperatureC = NaN` instead of failing, contradicting the claim that
such a parse fails and that every returned snapshot has a numeric
temperature. -/
theorem parseECCC_nan_temp_cex :
    (parseECCCWeather nanTempDoc "2024-01-01T00:00:00Z").map
        (fun w => w.current.temperature) = .ok JsNum.nan := by
  decide

/-- C2 (amended): the parse fails exactly when a required node is absent — in
particular whenever the `location` or `currentConditions` sections are
missing — but a present temperature node whose text cannot be coerced yields
a snapshot with NaN temperature rather than a failure. -/
theorem parseECCC_failure_conditions :
    (∀ (doc : RawDoc) (now : String),
        (parseECCCWeather doc now).isOk = requiredBulletinNodes doc)
    ∧ (∀ (sd : SiteData) (now : String), sd.location = none →
        parseECCCWeather ⟨some sd⟩ now
          = .error "Weather data structure is invalid or missing key elements.")
    ∧ (∀ (sd : SiteData) (now : String), sd.currentConditions = none →
        parseECCCWeather ⟨some sd⟩ now
          = .error "Weather data structure is invalid or missing key elements.")
    ∧ (∀ (now : String), parseECCCWeather ⟨none⟩ now
        = .error "Weather data structure is invalid or missing key elements.") := by
  refine ⟨?_, ?_, ?_, fun now => rfl⟩
  · intro doc now
    obtain ⟨sdOpt⟩ := doc
    cases sdOpt with
    | none => rfl
    | some sd =>
      obtain ⟨locOpt, curOpt, fgOpt, alm⟩ := sd
      cases locOpt with
      | none => rfl
      | some loc =>
        cases curOpt with
        | none => rfl
        | some cur =>
          obtain ⟨nameOpt, provOpt⟩ := loc
          obtain ⟨tempOpt, cond, humOpt, windOpt, pressOpt, visOpt, dtOpt⟩ := cur
          cases nameOpt with
          | none => rfl
          | some nm =>
            cases provOpt with
            | none => rfl
            | some pv =>
              cases tempOpt with
              | none => rfl
              | some tv =>
                cases humOpt with
                | none => rfl
                | some hv =>
                  cases windOpt with
                  | none => rfl
                  | some wv =>
                    obtain ⟨speedOpt, wdir⟩ := wv
                    cases speedOpt with
                    | none => rfl
                    | some sv =>
                      cases pressOpt with
                      | none => rfl
                      | some prv =>
                        cases visOpt with
                        | none => rfl
                        | some viv =>
                          cases dtOpt with
                          | none => rfl
                          | some dts =>
                            cases dts with
                            | nil => rfl
                            | cons d0 dts1 =>
                              cases dts1 with
                              | nil => rfl
                              | cons d1 dts2 =>
                                cases fgOpt with
                                | none => rfl
                                | some fg => rfl
  · intro sd now h
    obtain ⟨locOpt, curOpt, fgOpt, alm⟩ := sd
    cases locOpt with
    | none => rfl
    | some loc => simp at h
  · intro sd now h
    obtain ⟨locOpt, curOpt, fgOpt, alm⟩ := sd
    cases curOpt with
    | none => cases locOpt with
      | none => rfl
      | some loc => rfl
    | some cur => simp at h

/-- Witness for C2: the missing-`location` failure at a concrete document. -/
theorem parseECCC_failure_conditions_witness :
    (⟨none, none, none, none⟩ : SiteData).location = none ∧
    parseECCCWeather ⟨some ⟨none, none, none, none⟩⟩ "T"
      = .error "Weather data structure is invalid or missing key elements." :=
  ⟨rfl, parseECCC_failure_conditions.2.1 ⟨none, none, none, none⟩ "T" rfl⟩

/- ===================== C4: parse determinism ===================== -/

/-- The clock reading flows only into the `timestamp` field: parsing at time
`t` equals parsing at a fixed time and overwriting `timestamp`. -/
theorem parseECCC_time_flow (doc : RawDoc) (t : String) :
    parseECCCWeather doc t
      = (parseECCCWeather doc "").map (fun w => { w with timestamp := t }) := by
  obtain ⟨sdOpt⟩ := doc
  cases sdOpt with
  | none => rfl
  | some sd =>
    obtain ⟨locOpt, curOpt, fgOpt, alm⟩ := sd
    cases locOpt with
    | none => rfl
    | some loc =>
      cases curOpt with
      | none => rfl
      | some cur =>
        obtain ⟨nameOpt, provOpt⟩ := loc
        obtain ⟨tempOpt, cond, humOpt, windOpt, pressOpt, visOpt, dtOpt⟩ := cur
        cases nameOpt with
        | none => rfl
        | some nm =>
          cases provOpt with
          | none => rfl
          | some pv =>
            cases tempOpt with
            | none => rfl
            | some tv =>
              cases humOpt with
              | none => rfl
              | some hv =>
                cases windOpt with
                | none => rfl
                | some wv =>
                  obtain ⟨speedOpt, wdir⟩ := wv
                  cases speedOpt with
                  | none => rfl
                  | some sv =>
                    cases pressOpt with
                    | none => rfl
                    | some prv =>
                      cases visOpt with
                      | none => rfl
                      | some viv =>
                        cases dtOpt with
                        | none => rfl
                        | some dts =>
                          cases dts with
                          | nil => rfl
                          | cons d0 dts1 =>
                            cases dts1 with
                            | nil => rfl
                            | cons d1 dts2 =>
                              cases fgOpt with
                              | none => rfl
                              | some fg => rfl

/-- A fully well-formed bulletin used for the determinism counterexample. -/
def validBulletinDoc : RawDoc :=
  ⟨some
    { location := some
        { name := some ⟨some "Brandon", some "49.8", some "-99.9"⟩
          province := some ⟨some "MB"⟩ }
      currentConditions := some
        { temperature := some ⟨some "12.5"⟩
          condition := some "Sunny"
          relativeHumidity := some ⟨some "55"⟩
          wind := some ⟨some ⟨some "9"⟩, some "W"⟩
          pressure := some ⟨some "102.1"⟩
          visibility := some ⟨some "24"⟩
          dateTime := some [⟨some "2024-05-05T12:00:00Z"⟩, ⟨some "Sunday May 5"⟩] }
      forecastGroup := some ⟨some (.many
        [{ period := some ⟨some "Tonight"⟩
           textSummary := some "Clear. Low plus 2."
           temperatures := some ⟨some (.many [⟨some "low", some "2"⟩])⟩
           abbreviatedForecast := some ⟨some ⟨some "10"⟩, some "Clear"⟩ }])⟩
      almanac := none }⟩

/-- C4 counterexample: the snapshot-producing operation is not a pure function
of the raw document alone — two invocations on the same document at different
clock readings return structurally different values, because the code writes
`timestamp: new Date().toISOString()` into the snapshot. -/
theorem parseECCC_not_time_invariant_cex :
    (parseECCCWeather validBulletinDoc "2024-01-01T00:00:00Z").map
        (fun w => w.timestamp)
      ≠ (parseECCCWeather validBulletinDoc "2024-01-02T00:00:00Z").map
        (fun w => w.timestamp) := by
  decide

/-- C4 (amended): re-parsing the same raw bulletin yields snapshots that are
structurally identical except for the `timestamp` field, which records the
invocation time; every other field is a pure function of the raw document. -/
theorem parseECCC_deterministic_mod_timestamp :
    (∀ (doc : RawDoc) (t1 t2 : String),
        (parseECCCWeather doc t1).map (fun w => { w with timestamp := "" })
          = (parseECCCWeather doc t2).map (fun w => { w with timestamp := "" }))
    ∧ (∀ (doc : RawDoc) (t : String) (w : WeatherData),
        parseECCCWeather doc t = .ok w → w.timestamp = t) := by
  constructor
  · intro doc t1 t2
    rw [parseECCC_time_flow doc t1, parseECCC_time_flow doc t2]
    cases parseECCCWeather doc "" with
    | error e => rfl
    | ok w => rfl
  · intro doc t w h
    rw [parseECCC_time_flow doc t] at h
    cases hp : parseECCCWeather doc "" with
    | error e =>
      rw [hp] at h
      simp [Except.map] at h
    | ok w0 =>
      rw [hp] at h
      simp only [Except.map] at h
      injection h with h'
      rw [← h']

/-- Witness for C4: determinism modulo timestamp at the concrete bulletin. -/
theorem parseECCC_deterministic_mod_timestamp_witness :
    (parseECCCWeather validBulletinDoc "2024-01-01T00:00:00Z").map
        (fun w => { w with timestamp := "" })
      = (parseECCCWeather validBulletinDoc "2024-01-02T00:00:00Z").map
        (fun w => { w with timestamp := "" }) :=
  parseECCC_deterministic_mod_timestamp.1 validBulletinDoc
    "2024-01-01T00:00:00Z" "2024-01-02T00:00:00Z"

/- ===================== C8/C10: calculateFrostRisk ===================== -/

/-- The risk record returned by `calculateFrostRisk`
(`expected_low_C = none` renders the string `'Not in immediate forecast'`). -/
structure FrostRisk where
  current_temp_C : JsNum
  expected_low_C : Option JsNum
  tonight_risk_level : String
  factors : List String
deriving DecidableEq, Repr

/-- `calculateFrostRisk` from `functions/src/services/auth/usernameService.js`:
effective risk temperature from the nearest forecast low (else current − 3),
graded HIGH/MEDIUM/LOW with contributing factors, a clear-sky/light-wind
escalation, a dew-point note, and a default explanation when nothing else
applied.  (`parseFloat` applied to an already numeric forecast low is the
identity on the modelled range.) -/
def calculateFrostRisk (weather : WeatherData) : FrostRisk :=
  let currentTemp := weather.current.temperature
  let windSpeed := weather.current.windSpeed
  let condition : String :=
    match weather.current.condition with
    | some c => if c.isEmpty then "" else jsToLower c
    | none => ""
  let forecastedLow : Option JsNum :=
    match weather.forecast.head? with
    | some fc0 =>
      match fc0.temperature.low with
      | some v => some v
      | none => none
    | none => none
  let effectiveTempForRisk : JsNum :=
    match forecastedLow with
    | some v => v
    | none => jsSub currentTemp 3
  let level1 : String :=
    if jsLe effectiveTempForRisk 0 then "HIGH"
    else if jsLe effectiveTempForRisk 2 then "MEDIUM"
    else "LOW"
  let factors1 : List String :=
    if jsLe effectiveTempForRisk 0 then
      ["Temperature expected to drop to 0°C or below."]
    else if jsLe effectiveTempForRisk 2 then
      ["Temperature expected to drop near 0-2°C, light frost possible."]
    else if jsLe effectiveTempForRisk 4 then
      ["Temperatures expected to remain above 2-4°C, but monitor if skies clear."]
    else []
  let clearCalm : Bool :=
    jsLt windSpeed 8 &&
      (strIncludes condition "clear" || strIncludes condition "a few clouds")
  let factors2 : List String :=
    if clearCalm then
      factors1 ++ ["Clear skies and light winds increase radiative cooling and frost risk."]
    else factors1
  let level2 : String :=
    if clearCalm && (level1 == "LOW") && jsLe effectiveTempForRisk 5 then "MEDIUM"
    else level1
  let factors3 : List String :=
    match weather.current.dewpoint with
    | some d =>
      if jsNumTruthy d && jsLeNN effectiveTempForRisk d
          && jsLe effectiveTempForRisk 2 then
        factors2 ++
          ["Temperature may drop to dew point, increasing frost intensity if below freezing."]
      else factors2
    | none => factors2
  let factors4 : List String :=
    if factors3.isEmpty && (level2 == "LOW") then
      ["Currently, frost risk appears low based on available data."]
    else factors3
  ⟨currentTemp, forecastedLow, level2, factors4⟩

/-- The effective risk temperature of the claim: nearest forecast low when
present, else current temperature minus 3. -/
def effectiveRiskTemp (w : WeatherData) : JsNum :=
  match w.forecast.head? with
  | some fc0 =>
    match fc0.temperature.low with
    | some v => v
    | none => jsSub w.current.temperature 3
  | none => jsSub w.current.temperature 3

/-- The lower-cased condition text the frost assessment scans. -/
def frostConditionText (w : WeatherData) : String :=
  match w.current.condition with
  | some c => if c.isEmpty then "" else jsToLower c
  | none => ""

/-- The clear-sky/light-wind escalation condition of the claim. -/
def clearCalmCond (w : WeatherData) : Bool :=
  jsLt w.current.windSpeed 8 &&
    (strIncludes (frostConditionText w) "clear"
      || strIncludes (frostConditionText w) "a few clouds")

/-- The forecasted low the risk record reports (`null` when the nearest period
has no low). -/
def forecastLowOf (w : WeatherData) : Option JsNum :=
  match w.forecast.head? with
  | some fc0 => fc0.temperature.low
  | none => none

/-- The risk level as a function of the effective temperature and the
clear-sky/light-wind escalation flag. -/
def frostLevelOf (eff : JsNum) (cc : Bool) : String :=
  if cc && ((if jsLe eff 0 then "HIGH"
             else if jsLe eff 2 then "MEDIUM"
             else "LOW") == "LOW") && jsLe eff 5 then "MEDIUM"
  else if jsLe eff 0 then "HIGH"
  else if jsLe eff 2 then "MEDIUM"
  else "LOW"

/-- The factor list as a function of the effective temperature, the
escalation flag, and the dew point. -/
def frostFactorsOf (eff : JsNum) (cc : Bool) (dew : Option JsNum) : List String :=
  let factors1 : List String :=
    if jsLe eff 0 then ["Temperature expected to drop to 0°C or below."]
    else if jsLe eff 2 then ["Temperature expected to drop near 0-2°C, light frost possible."]
    else if jsLe eff 4 then
      ["Temperatures expected to remain above 2-4°C, but monitor if skies clear."]
    else []
  let factors2 : List String :=
    if cc then
      factors1 ++ ["Clear skies and light winds increase radiative cooling and frost risk."]
    else factors1
  let factors3 : List String :=
    match dew with
    | some d =>
      if jsNumTruthy d && jsLeNN eff d && jsLe eff 2 then
        factors2 ++
          ["Temperature may drop to dew point, increasing frost intensity if below freezing."]
      else factors2
    | none => factors2
  let level2 : String :=
    if cc && ((if jsLe eff 0 then "HIGH"
               else if jsLe eff 2 then "MEDIUM"
               else "LOW") == "LOW") && jsLe eff 5 then "MEDIUM"
    else if jsLe eff 0 then "HIGH"
    else if jsLe eff 2 then "MEDIUM"
    else "LOW"
  if factors3.isEmpty && (level2 == "LOW") then
    ["Currently, frost risk appears low based on available data."]
  else factors3

/-- `calculateFrostRisk` in normal form: every output field as a function of
the effective temperature, the escalation flag and the dew point. -/
theorem calculateFrostRisk_eq (w : WeatherData) :
    calculateFrostRisk w
      = ⟨w.current.temperature, forecastLowOf w,
         frostLevelOf (effectiveRiskTemp w) (clearCalmCond w),
         frostFactorsOf (effectiveRiskTemp w) (clearCalmCond w) (w.current.dewpoint)⟩ := by
  obtain ⟨loc, cur, fc, alm, ts, src, pr⟩ := w
  cases fc with
  | nil => rfl
  | cons fc0 rest =>
    obtain ⟨p, s, tps, pop⟩ := fc0
    obtain ⟨hi, lo⟩ := tps
    cases lo with
    | none => rfl
    | some v => rfl

/-- The staged level computation equals the claim's flat conditional. -/
theorem frostLevelOf_eq (eff : JsNum) (cc : Bool) :
    frostLevelOf eff cc
      = (if jsLe eff 0 then "HIGH"
         else if jsLe eff 2 then "MEDIUM"
         else if cc && jsLe eff 5 then "MEDIUM"
         else "LOW") := by
  by_cases h0 : jsLe eff 0 <;> by_cases h2 : jsLe eff 2 <;> cases cc <;>
    by_cases h5 : jsLe eff 5 <;> simp [frostLevelOf, h0, h2, h5]

/-- `jsLe` is monotone in its numeric bound. -/
theorem jsLe_mono (eff : JsNum) (a b : ℚ) (hab : a ≤ b) (h : jsLe eff a = true) :
    jsLe eff b = true := by
  cases eff with
  | nan => simp [jsLe] at h
  | num q =>
    simp only [jsLe, decide_eq_true_eq] at h ⊢
    linarith

/-- In the monitoring band (2 < effective ≤ 4) the monitoring note is listed. -/
theorem frostFactorsOf_monitor (eff : JsNum) (cc : Bool) (dew : Option JsNum)
    (h2 : jsLe eff 2 = false) (h4 : jsLe eff 4 = true) :
    "Temperatures expected to remain above 2-4°C, but monitor if skies clear."
      ∈ frostFactorsOf eff cc dew := by
  have h0 : jsLe eff 0 = false := by
    cases hE : jsLe eff 0 with
    | false => rfl
    | true => rw [jsLe_mono eff 0 2 (by norm_num) hE] at h2; exact absurd h2 (by simp)
  rcases dew with _ | d <;> by_cases hcc : cc <;>
    simp [frostFactorsOf, h0, h2, h4, hcc]

/-- The factor list is never empty. -/
theorem frostFactorsOf_ne_nil (eff : JsNum) (cc : Bool) (dew : Option JsNum) :
    frostFactorsOf eff cc dew ≠ [] := by
  rcases dew with _ | d
  · by_cases h0 : jsLe eff 0 <;> by_cases h2 : jsLe eff 2 <;>
      by_cases h4 : jsLe eff 4 <;> by_cases hcc : cc <;>
        simp [frostFactorsOf, h0, h2, h4, hcc]
  · by_cases hdd : (jsNumTruthy d && jsLeNN eff d && jsLe eff 2) <;>
      by_cases h0 : jsLe eff 0 <;> by_cases h2 : jsLe eff 2 <;>
        by_cases h4 : jsLe eff 4 <;> by_cases hcc : cc <;>
          simp [frostFactorsOf, h0, h2, h4, hcc, hdd] <;> split <;> simp

/-- The claim's concrete snapshot: current temperature 1 °C, wind 5 km/h,
condition "clear", no forecast low, no dew point. -/
def frostExampleW : WeatherData :=
  { location := ⟨none, none, .nan, .nan⟩
    current := ⟨.num 1, some "clear", .nan, .num 5, none, .nan, .nan, none, none⟩
    forecast := []
    almanac := ⟨none, none, none, none, none⟩
    timestamp := ""
    source := "ECCC"
    precipitation := none }

/-- C8: for every snapshot with numeric current temperature and wind speed,
the risk level follows the claim's conditional on the effective temperature
(forecast low when present, else current − 3) with the clear/calm escalation,
the monitoring note is listed in the (2, 4] band, and the concrete example
(1 °C, no low, wind 5, "clear") has effective −2, level HIGH and a non-empty
factor list. -/
theorem calculateFrostRisk_classification :
    (∀ (w : WeatherData) (t ws : ℚ),
      w.current.temperature = .num t → w.current.windSpeed = .num ws →
      (calculateFrostRisk w).tonight_risk_level
        = (if jsLe (effectiveRiskTemp w) 0 then "HIGH"
           else if jsLe (effectiveRiskTemp w) 2 then "MEDIUM"
           else if clearCalmCond w && jsLe (effectiveRiskTemp w) 5 then "MEDIUM"
           else "LOW")
      ∧ (jsLe (effectiveRiskTemp w) 2 = false → jsLe (effectiveRiskTemp w) 4 = true →
          "Temperatures expected to remain above 2-4°C, but monitor if skies clear."
            ∈ (calculateFrostRisk w).factors))
    ∧ effectiveRiskTemp frostExampleW = .num (-2)
    ∧ (calculateFrostRisk frostExampleW).tonight_risk_level = "HIGH"
    ∧ (calculateFrostRisk frostExampleW).factors ≠ [] := by
  have hEx : effectiveRiskTemp frostExampleW = .num (-2) := by
    simp only [effectiveRiskTemp, frostExampleW, jsSub, List.head?]
    norm_num
  refine ⟨?_, hEx, ?_, ?_⟩
  · intro w t ws ht hw
    constructor
    · rw [calculateFrostRisk_eq]
      exact frostLevelOf_eq (effectiveRiskTemp w) (clearCalmCond w)
    · intro h2 h4
      rw [calculateFrostRisk_eq]
      exact frostFactorsOf_monitor (effectiveRiskTemp w) (clearCalmCond w)
        w.current.dewpoint h2 h4
  · rw [calculateFrostRisk_eq, hEx]
    have hle : jsLe (JsNum.num (-2)) 0 = true := by
      simp only [jsLe, decide_eq_true_eq]
      norm_num
    simp [frostLevelOf, hle]
  · rw [calculateFrostRisk_eq]
    show frostFactorsOf (effectiveRiskTemp frostExampleW) (clearCalmCond frostExampleW)
      frostExampleW.current.dewpoint ≠ []
    exact frostFactorsOf_ne_nil _ _ _

/-- Witness for C8 at the concrete snapshot. -/
theorem calculateFrostRisk_classification_witness :
    frostExampleW.current.temperature = JsNum.num 1 ∧
    frostExampleW.current.windSpeed = JsNum.num 5 ∧
    (calculateFrostRisk frostExampleW).tonight_risk_level
      = (if jsLe (effectiveRiskTemp frostExampleW) 0 then "HIGH"
         else if jsLe (effectiveRiskTemp frostExampleW) 2 then "MEDIUM"
         else if clearCalmCond frostExampleW && jsLe (effectiveRiskTemp frostExampleW) 5
           then "MEDIUM"
         else "LOW") :=
  ⟨rfl, rfl, (calculateFrostRisk_classification.1 frostExampleW 1 5 rfl rfl).1⟩

/-- C10: for every snapshot with numeric current temperature and wind speed,
the frost assessment's factor list is non-empty (a default low-risk
explanation is appended when nothing else applied). -/
theorem calculateFrostRisk_factors_nonempty (w : WeatherData) (t ws : ℚ)
    (_ht : w.current.temperature = .num t) (_hw : w.current.windSpeed = .num ws) :
    (calculateFrostRisk w).factors ≠ [] := by
  rw [calculateFrostRisk_eq]
  show frostFactorsOf (effectiveRiskTemp w) (clearCalmCond w) w.current.dewpoint ≠ []
  exact frostFactorsOf_ne_nil _ _ _

/-- Witness for C10 at the concrete snapshot. -/
theorem calculateFrostRisk_factors_nonempty_witness :
    frostExampleW.current.temperature = JsNum.num 1 ∧
    frostExampleW.current.windSpeed = JsNum.num 5 ∧
    (calculateFrostRisk frostExampleW).factors ≠ [] :=
  ⟨rfl, rfl, calculateFrostRisk_factors_nonempty frostExampleW 1 5 rfl rfl⟩

/- ===================== C3: cache get/put (nasa.js) ===================== -/

/-- One cache document `{value, timestamp, ttl}` as written by `cacheData` in
`functions/src/services/nasa.js`; `timestamp` is milliseconds since the epoch
(`Timestamp.toDate().getTime()`), `ttl` is in seconds. -/
structure JsCacheEntry (V : Type) where
  value : V
  timestamp : ℚ
  ttl : ℚ
deriving Repr

/-- The Firestore `cache` collection, keyed by document id. -/
def CacheStore (V : Type) : Type := String → Option (JsCacheEntry V)

/-- `getCachedData` from `functions/src/services/nasa.js`, with the Firestore
read and delete modelled as fallible (`readFails`/`deleteFails`); any thrown
error is caught and converted into a `null` result (`fail open`), so the
caller sees only the value and the possibly-updated store. -/
def getCachedData {V : Type} (readFails deleteFails : Bool) (store : CacheStore V)
    (now : ℚ) (cacheKey : String) : Option V × CacheStore V :=
  if readFails then (none, store)
  else
    match store cacheKey with
    | none => (none, store)
    | some data =>
      let age := (now - data.timestamp) / 1000
      if age > data.ttl then
        if deleteFails then (none, store)
        else (none, fun k => if k = cacheKey then none else store k)
      else (some data.value, store)

/-- `cacheData` from `functions/src/services/nasa.js`: overwrite the document
with `{value, timestamp: now, ttl}`; a write failure is caught and logged, so
the store is simply left unchanged and nothing is raised. -/
def cacheData {V : Type} (writeFails : Bool) (store : CacheStore V) (now : ℚ)
    (cacheKey : String) (v : V) (ttlSeconds : ℚ) : CacheStore V :=
  if writeFails then store
  else fun k => if k = cacheKey then some ⟨v, now, ttlSeconds⟩ else store k

/-- A lookup at a key with no entry always misses, whatever the fault flags. -/
theorem getCachedData_miss {V : Type} (rf df : Bool) (store : CacheStore V)
    (now : ℚ) (k : String) (h : store k = none) :
    (getCachedData rf df store now k).1 = none := by
  cases rf with
  | true => rfl
  | false => simp [getCachedData, h]

/-- C3 counterexample: with a negative TTL the claim's round trip fails — a
`put` with `ttl = -1` followed immediately by a `get` at the same instant
returns absent (age 0 exceeds the TTL), not the stored value. -/
theorem cache_put_get_negative_ttl_cex :
    (getCachedData false false
        (cacheData false (fun _ => none) 0 "k" (42 : ℕ) (-1)) 0 "k").1 = none := by
  simp only [getCachedData, cacheData, if_false, Bool.false_eq_true, ite_false]
  norm_num

/-- C3 (amended): a `get` misses when no entry exists; an entry older than its
TTL is reported absent and deleted, and later lookups stay absent; a `put`
with nonnegative TTL followed immediately by a `get` returns the value; and
any injected I/O failure during `get` or `put` degrades to a plain miss with
the store unchanged, never an error. -/
theorem cache_contract :
    (∀ (V : Type) (rf df : Bool) (store : CacheStore V) (now : ℚ) (k : String),
        store k = none → (getCachedData rf df store now k).1 = none)
    ∧ (∀ (V : Type) (store : CacheStore V) (now : ℚ) (k : String) (e : JsCacheEntry V),
        store k = some e → (now - e.timestamp) / 1000 > e.ttl →
        (getCachedData false false store now k).1 = none
        ∧ (getCachedData false false store now k).2 k = none
        ∧ (∀ (now' : ℚ) (rf df : Bool),
            (getCachedData rf df (getCachedData false false store now k).2 now' k).1
              = none))
    ∧ (∀ (V : Type) (store : CacheStore V) (now : ℚ) (k : String) (v : V) (t : ℚ),
        0 ≤ t →
        (getCachedData false false (cacheData false store now k v t) now k).1 = some v)
    ∧ (∀ (V : Type) (df : Bool) (store : CacheStore V) (now : ℚ) (k : String),
        getCachedData true df store now k = (none, store))
    ∧ (∀ (V : Type) (store : CacheStore V) (now : ℚ) (k : String) (v : V) (t : ℚ),
        cacheData true store now k v t = store) := by
  refine ⟨fun V rf df store now k h => getCachedData_miss rf df store now k h,
    ?_, ?_, fun V df store now k => rfl, fun V store now k v t => rfl⟩
  · intro V store now k e hk hexp
    have hnone : (getCachedData false false store now k).2 k = none := by
      simp only [getCachedData, if_false, Bool.false_eq_true, ite_false, hk]
      rw [if_pos hexp]
      simp
    refine ⟨?_, hnone, ?_⟩
    · simp only [getCachedData, if_false, Bool.false_eq_true, ite_false, hk]
      rw [if_pos hexp]
    · intro now' rf df
      exact getCachedData_miss rf df _ now' k hnone
  · intro V store now k v t ht
    have hage : ¬ t < 0 := not_lt.mpr ht
    simp [getCachedData, cacheData, sub_self, zero_div, hage]

/-- Witness for C3: round trip at a concrete key, value and TTL. -/
theorem cache_contract_witness :
    (0 : ℚ) ≤ 300 ∧
    (getCachedData false false
        (cacheData false (fun _ => none) 0 "nasa_k" (7 : ℕ) 300) 0 "nasa_k").1
      = some 7 :=
  ⟨by norm_num,
   cache_contract.2.2.1 ℕ (fun _ => none) 0 "nasa_k" 7 300 (by norm_num)⟩

/- ===================== C9: isValidDate (nasa.js) ===================== -/

/-- Gregorian leap-year rule used by the JavaScript `Date`. -/
def gregLeap (y : ℤ) : Bool :=
  (y % 4 == 0 && y % 100 != 0) || y % 400 == 0

/-- Days in month `m0` (0-based) of year `y` in the proleptic Gregorian
calendar. -/
def daysInMonth (y m0 : ℤ) : ℤ :=
  if m0 = 1 then (if gregLeap y then 29 else 28)
  else if m0 = 3 ∨ m0 = 5 ∨ m0 = 8 ∨ m0 = 10 then 30
  else 31

/-- The month after `(y, m0)`. -/
def nextMonth (y m0 : ℤ) : ℤ × ℤ :=
  if m0 = 11 then (y + 1, 0) else (y, m0 + 1)

/-- The month before `(y, m0)`. -/
def prevMonth (y m0 : ℤ) : ℤ × ℤ :=
  if m0 = 0 then (y - 1, 11) else (y, m0 - 1)

/-- Normalise an out-of-range day-of-month by walking across month
boundaries, as the `Date` constructor's `MakeDay` does; the fuel bounds the
number of steps (4 suffices for day values up to 112). -/
def fixDay : Nat → ℤ → ℤ → ℤ → ℤ × ℤ × ℤ
  | 0, y, m0, d => (y, m0, d)
  | fuel + 1, y, m0, d =>
    if d < 1 then
      fixDay fuel (prevMonth y m0).1 (prevMonth y m0).2
        (d + daysInMonth (prevMonth y m0).1 (prevMonth y m0).2)
    else if daysInMonth y m0 < d then
      fixDay fuel (nextMonth y m0).1 (nextMonth y m0).2 (d - daysInMonth y m0)
    else (y, m0, d)

/-- `new Date(y, m0, d)` normalisation (`MakeDay`): fold the month into the
year with floor division, then normalise the day, returning
`(getFullYear(), getMonth(), getDate())`. -/
def jsMakeDay (y m0 d : ℤ) : ℤ × ℤ × ℤ :=
  fixDay 4 (y + m0 / 12) (m0 % 12) d

/-- The `^\d{8}$` test. -/
def eightDigits (s : String) : Bool :=
  (s.length == 8) && s.data.all Char.isDigit

/-- `parseInt(dateStr.substring(0, 4), 10)`. -/
def yearOf (s : String) : Nat := digitsVal (s.data.take 4)

/-- `parseInt(dateStr.substring(4, 6), 10)`. -/
def monthOf (s : String) : Nat := digitsVal ((s.data.drop 4).take 2)

/-- `parseInt(dateStr.substring(6, 8), 10)`. -/
def dayOf (s : String) : Nat := digitsVal ((s.data.drop 6).take 2)

/-- `isValidDate` from `functions/src/services/nasa.js`: 8-digit check, then
round-trip through `new Date(year, month - 1, day)` — two-digit years are
offset by 1900 by the `Date` constructor before the comparison.  (The year
from four digits is always nonnegative, so the JavaScript `0 <= year` half of
the offset condition is implicit.) -/
def isValidDate (dateStr : String) : Bool :=
  if eightDigits dateStr then
    let year : ℤ := (yearOf dateStr : ℤ)
    let month : ℤ := (monthOf dateStr : ℤ)
    let day : ℤ := (dayOf dateStr : ℤ)
    let yAdj : ℤ := if year ≤ 99 then 1900 + year else year
    let r := jsMakeDay yAdj (month - 1) day
    (r.1 == year) && (r.2.1 == month - 1) && (r.2.2 == day)
  else false

/-- Modelled from the spec: an 8-digit `YYYYMMDD` string denoting a possible
calendar date — month between 1 and 12 and day valid for that month and year,
February 29 exactly in leap years. -/
def validCalendarDate (s : String) : Bool :=
  eightDigits s && decide (1 ≤ monthOf s) && decide (monthOf s ≤ 12) &&
    decide (1 ≤ dayOf s) &&
    decide ((dayOf s : ℤ) ≤ daysInMonth (yearOf s : ℤ) ((monthOf s : ℤ) - 1))

/-- Month lengths are between 28 and 31. -/
theorem daysInMonth_bounds (y m0 : ℤ) :
    28 ≤ daysInMonth y m0 ∧ daysInMonth y m0 ≤ 31 := by
  unfold daysInMonth
  split_ifs <;> norm_num

/-- Stepping forward one month adds one to the linear month index. -/
theorem nextMonth_idx (y m0 : ℤ) (h0 : 0 ≤ m0) (h1 : m0 ≤ 11) :
    0 ≤ (nextMonth y m0).2 ∧ (nextMonth y m0).2 ≤ 11
    ∧ (nextMonth y m0).1 * 12 + (nextMonth y m0).2 = y * 12 + m0 + 1 := by
  unfold nextMonth
  split_ifs with h <;> simp <;> omega

/-- Stepping back one month subtracts one from the linear month index. -/
theorem prevMonth_idx (y m0 : ℤ) (h0 : 0 ≤ m0) (h1 : m0 ≤ 11) :
    0 ≤ (prevMonth y m0).2 ∧ (prevMonth y m0).2 ≤ 11
    ∧ (prevMonth y m0).1 * 12 + (prevMonth y m0).2 = y * 12 + m0 - 1 := by
  unfold prevMonth
  split_ifs with h <;> simp <;> omega

/-- Soundness of the day normalisation on positive days within the fuel
bound: the result is a real calendar day, the month index never moves
backwards and moves by at most `fuel`, an in-range day is returned unchanged,
and an out-of-range day strictly advances the month index. -/
theorem fixDay_spec : ∀ (fuel : Nat) (y m0 d : ℤ),
    0 ≤ m0 → m0 ≤ 11 → 1 ≤ d → d ≤ 28 * fuel →
    (0 ≤ (fixDay fuel y m0 d).2.1 ∧ (fixDay fuel y m0 d).2.1 ≤ 11
     ∧ 1 ≤ (fixDay fuel y m0 d).2.2
     ∧ (fixDay fuel y m0 d).2.2
         ≤ daysInMonth (fixDay fuel y m0 d).1 (fixDay fuel y m0 d).2.1
     ∧ y * 12 + m0 ≤ (fixDay fuel y m0 d).1 * 12 + (fixDay fuel y m0 d).2.1
     ∧ (fixDay fuel y m0 d).1 * 12 + (fixDay fuel y m0 d).2.1 ≤ y * 12 + m0 + fuel
     ∧ (d ≤ daysInMonth y m0 → fixDay fuel y m0 d = (y, m0, d))
     ∧ (daysInMonth y m0 < d →
         y * 12 + m0 < (fixDay fuel y m0 d).1 * 12 + (fixDay fuel y m0 d).2.1)) := by
  intro fuel
  induction fuel with
  | zero =>
    intro y m0 d h0 h1 hd1 hdu
    exact absurd hdu (by omega)
  | succ fuel ih =>
    intro y m0 d h0 h1 hd1 hdu
    simp only [fixDay]
    rw [if_neg (by omega : ¬ d < 1)]
    by_cases hover : daysInMonth y m0 < d
    · rw [if_pos hover]
      obtain ⟨hb1, hb2⟩ := daysInMonth_bounds y m0
      obtain ⟨hn0, hn1, hnidx⟩ := nextMonth_idx y m0 h0 h1
      have hrec := ih (nextMonth y m0).1 (nextMonth y m0).2 (d - daysInMonth y m0)
        hn0 hn1 (by omega) (by omega)
      obtain ⟨c1, c2, c3, c4, c5, c6, c7, c8⟩ := hrec
      refine ⟨c1, c2, c3, c4, by omega, by omega, ?_, fun _ => by omega⟩
      intro hle
      exact absurd hover (by omega)
    · rw [if_neg hover]
      dsimp only
      refine ⟨h0, h1, hd1, by omega, by omega, by omega, fun _ => rfl, ?_⟩
      intro hlt
      exact absurd hover (by omega)

/-- Day `0` borrows from the previous month, so the normalised day is at
least 1 (in particular never `0`). -/
theorem fixDay_zero_day (y m0 : ℤ) (h0 : 0 ≤ m0) (h1 : m0 ≤ 11) :
    1 ≤ (fixDay 4 y m0 0).2.2
    ∧ (fixDay 4 y m0 0).1 * 12 + (fixDay 4 y m0 0).2.1 = y * 12 + m0 - 1 := by
  obtain ⟨hp0, hp1, hpidx⟩ := prevMonth_idx y m0 h0 h1
  obtain ⟨hb1, hb2⟩ := daysInMonth_bounds (prevMonth y m0).1 (prevMonth y m0).2
  have hstep : fixDay 4 y m0 0
      = fixDay 3 (prevMonth y m0).1 (prevMonth y m0).2
          (0 + daysInMonth (prevMonth y m0).1 (prevMonth y m0).2) := by
    show fixDay (3 + 1) y m0 0 = _
    simp only [fixDay]
    rw [if_pos (by norm_num : (0 : ℤ) < 1)]
  have hrec := fixDay_spec 3 (prevMonth y m0).1 (prevMonth y m0).2
    (0 + daysInMonth (prevMonth y m0).1 (prevMonth y m0).2) hp0 hp1 (by omega) (by omega)
  have heq := hrec.2.2.2.2.2.2.1 (by omega)
  rw [hstep, heq]
  simp only []
  constructor
  · omega
  · omega

/-- A digit character's code point lies between 48 and 57. -/
theorem digit_toNat_bounds (c : Char) (h : c.isDigit = true) :
    48 ≤ c.toNat ∧ c.toNat ≤ 57 := by
  simp [Char.isDigit] at h
  exact ⟨h.1, h.2⟩

/-- Accumulator bound for the digit fold. -/
theorem digitsVal_foldl_lt : ∀ (l : List Char) (acc : Nat),
    (∀ c ∈ l, c.isDigit = true) →
    l.foldl (fun a c => a * 10 + (c.toNat - '0'.toNat)) acc
      < (acc + 1) * 10 ^ l.length := by
  intro l
  induction l with
  | nil =>
    intro acc _
    simp
  | cons c t ih =>
    intro acc h
    have hc := digit_toNat_bounds c (h c (by simp))
    have ht : ∀ x ∈ t, x.isDigit = true := fun x hx => h x (by simp [hx])
    have hrec := ih (acc * 10 + (c.toNat - '0'.toNat)) ht
    have hz : '0'.toNat = 48 := rfl
    have hstep : (acc * 10 + (c.toNat - '0'.toNat) + 1) * 10 ^ t.length
        ≤ (acc + 1) * 10 ^ (t.length + 1) := by
      have h10 : acc * 10 + (c.toNat - '0'.toNat) + 1 ≤ (acc + 1) * 10 := by omega
      calc (acc * 10 + (c.toNat - '0'.toNat) + 1) * 10 ^ t.length
          ≤ ((acc + 1) * 10) * 10 ^ t.length := Nat.mul_le_mul_right _ h10
        _ = (acc + 1) * 10 ^ (t.length + 1) := by ring
    simp only [List.foldl_cons, List.length_cons]
    omega

/-- A run of digit characters denotes a value below `10 ^ length`. -/
theorem digitsVal_lt (l : List Char) (h : ∀ c ∈ l, c.isDigit = true) :
    digitsVal l < 10 ^ l.length := by
  have := digitsVal_foldl_lt l 0 h
  simpa [digitsVal] using this

/-- The day field of an 8-digit string is below 100. -/
theorem dayOf_lt (s : String) (h8 : eightDigits s = true) : dayOf s < 100 := by
  have hall : ∀ c ∈ s.data, c.isDigit = true := by
    simp only [eightDigits, Bool.and_eq_true, List.all_eq_true] at h8
    exact fun c hc => h8.2 c hc
  have hsub : ∀ c ∈ (s.data.drop 6).take 2, c.isDigit = true := fun c hc =>
    hall c (List.drop_subset 6 s.data (List.take_subset 2 _ hc))
  have hlt := digitsVal_lt _ hsub
  have hlen : ((s.data.drop 6).take 2).length ≤ 2 := List.length_take_le 2 _
  have hpow : 10 ^ ((s.data.drop 6).take 2).length ≤ 10 ^ 2 :=
    Nat.pow_le_pow_right (by norm_num) hlen
  have : dayOf s < 10 ^ 2 := lt_of_lt_of_le hlt hpow
  simpa using this

/-- JavaScript truthiness of a nullable string (absent or empty is falsy). -/
def jsStrTruthyOpt (o : Option String) : Bool :=
  match o with
  | some s => !s.isEmpty
  | none => false

/-- `isNaN` on a modelled number. -/
def jsIsNaN (a : JsNum) : Bool :=
  match a with
  | .nan => true
  | .num _ => false

/-- JavaScript `a > b` for a possibly-NaN left operand. -/
def jsGt (a : JsNum) (b : ℚ) : Bool :=
  match a with
  | .nan => false
  | .num q => b < q

/-- Lexicographic code-point order on strings (JavaScript `<`). -/
def strLtChars : List Char → List Char → Bool
  | [], [] => false
  | [], _ :: _ => true
  | _ :: _, [] => false
  | a :: as, b :: bs =>
    if a.toNat < b.toNat then true
    else if b.toNat < a.toNat then false
    else strLtChars as bs

/-- JavaScript `a > b` on strings. -/
def jsStrGt (a b : String) : Bool := strLtChars b.data a.data

/-- Outcome of the `getNASAPowerData` request handler's validation phase:
either an immediate 400 response, or a call to `fetchNASAPowerData` with the
validated arguments. -/
inductive NasaHandlerResult where
  | badRequest (msg : String) : NasaHandlerResult
  | fetch (lat lon : JsNum) (startDate endDate : String) : NasaHandlerResult
deriving DecidableEq, Repr

/-- The validation phase of `exports.getNASAPowerData` (`functions/index.js`):
missing params, coordinate parsing/range, `isValidDate` on both dates, and
the lexicographic order check — every rejection happens before the upstream
fetch. -/
def getNASAPowerDataHandler (latS lonS startS endS : Option String) :
    NasaHandlerResult :=
  if !jsStrTruthyOpt latS || !jsStrTruthyOpt lonS
      || !jsStrTruthyOpt startS || !jsStrTruthyOpt endS then
    .badRequest "Missing params: lat, lon, startDate, endDate"
  else
    if jsIsNaN (jsParseFloat (latS.getD "")) || jsIsNaN (jsParseFloat (lonS.getD ""))
        || jsLt (jsParseFloat (latS.getD "")) (-90)
        || jsGt (jsParseFloat (latS.getD "")) 90
        || jsLt (jsParseFloat (lonS.getD "")) (-180)
        || jsGt (jsParseFloat (lonS.getD "")) 180 then
      .badRequest "Invalid coordinates."
    else if !isValidDate (startS.getD "") || !isValidDate (endS.getD "") then
      .badRequest "Invalid date format. Use YYYYMMDD"
    else if jsStrGt (startS.getD "") (endS.getD "") then
      .badRequest "Start date must be before end date"
    else .fetch (jsParseFloat (latS.getD "")) (jsParseFloat (lonS.getD ""))
      (startS.getD "") (endS.getD "")

/-- C9 counterexample: `"00500115"` denotes the possible calendar date
January 15 of year 50, yet `isValidDate` rejects it — the `Date` constructor
offsets two-digit years by 1900, so `getFullYear()` returns 1950 ≠ 50. -/
theorem isValidDate_small_year_cex :
    validCalendarDate "00500115" = true ∧ isValidDate "00500115" = false := by
  constructor <;> decide

/-- C9 (amended): an 8-digit date string is accepted iff it denotes a possible
Gregorian calendar date (month 1–12, day valid for the month and year,
February 29 exactly in leap years) AND its year is at least 100 (two-digit
years are shifted by 1900 by the `Date` constructor and always rejected); the
request handler only reaches the upstream fetch with dates `isValidDate`
accepted; the test suite's leap-year cases evaluate as expected. -/
theorem isValidDate_calendar :
    (∀ s : String, isValidDate s = true ↔
        (validCalendarDate s = true ∧ 100 ≤ yearOf s))
    ∧ (∀ (latS lonS startS endS : Option String) (a b : JsNum) (c d : String),
        getNASAPowerDataHandler latS lonS startS endS = .fetch a b c d →
        isValidDate c = true ∧ isValidDate d = true)
    ∧ isValidDate "20240229" = true
    ∧ isValidDate "20230229" = false
    ∧ isValidDate "20241301" = false
    ∧ isValidDate "2024529" = false := by
  refine ⟨?_, ?_, by decide, by decide, by decide, by decide⟩
  · intro s
    by_cases h8 : eightDigits s = true
    · constructor
      · intro hvalid
        simp only [isValidDate, h8, eq_self_iff_true, if_true, jsMakeDay,
          Bool.and_eq_true, beq_iff_eq] at hvalid
        obtain ⟨⟨e1, e2⟩, e3⟩ := hvalid
        by_cases hy99 : ((yearOf s : ℤ)) ≤ 99
        · exfalso
          rw [if_pos hy99] at e1 e2 e3
          rcases Nat.eq_zero_or_pos (dayOf s) with hd0 | hdpos
          · have hz := fixDay_zero_day
              (1900 + (yearOf s : ℤ) + ((monthOf s : ℤ) - 1) / 12)
              (((monthOf s : ℤ) - 1) % 12) (by omega) (by omega)
            rw [hd0] at e3
            simp only [Nat.cast_zero] at e3
            omega
          · have hspec := fixDay_spec 4
              (1900 + (yearOf s : ℤ) + ((monthOf s : ℤ) - 1) / 12)
              (((monthOf s : ℤ) - 1) % 12) ((dayOf s : ℤ))
              (by omega) (by omega) (by omega)
              (by have := dayOf_lt s h8; omega)
            obtain ⟨c1, c2, c3, c4, c5, c6, c7, c8⟩ := hspec
            omega
        · rw [if_neg hy99] at e1 e2 e3
          rcases Nat.eq_zero_or_pos (dayOf s) with hd0 | hdpos
          · exfalso
            have hz := fixDay_zero_day
              ((yearOf s : ℤ) + ((monthOf s : ℤ) - 1) / 12)
              (((monthOf s : ℤ) - 1) % 12) (by omega) (by omega)
            rw [hd0] at e3
            simp only [Nat.cast_zero] at e3
            omega
          · have hspec := fixDay_spec 4
              ((yearOf s : ℤ) + ((monthOf s : ℤ) - 1) / 12)
              (((monthOf s : ℤ) - 1) % 12) ((dayOf s : ℤ))
              (by omega) (by omega) (by omega)
              (by have := dayOf_lt s h8; omega)
            obtain ⟨c1, c2, c3, c4, c5, c6, c7, c8⟩ := hspec
            have hMrange : 1 ≤ monthOf s ∧ monthOf s ≤ 12 := by omega
            have hediv : ((monthOf s : ℤ) - 1) / 12 = 0 := by omega
            have hemod : ((monthOf s : ℤ) - 1) % 12 = (monthOf s : ℤ) - 1 := by
              omega
            rw [hediv, hemod, add_zero] at e1 e2 e3 c1 c2 c3 c4 c5 c6 c7 c8
            by_cases hday :
                (dayOf s : ℤ) ≤ daysInMonth (yearOf s : ℤ) ((monthOf s : ℤ) - 1)
            · refine ⟨?_, by omega⟩
              simp only [validCalendarDate, h8, Bool.and_eq_true,
                decide_eq_true_eq, true_and]
              exact ⟨⟨⟨hMrange.1, hMrange.2⟩, by omega⟩, hday⟩
            · exfalso
              have := c8 (by omega)
              omega
      · intro hrhs
        obtain ⟨hval, hy100⟩ := hrhs
        simp only [validCalendarDate, Bool.and_eq_true, decide_eq_true_eq] at hval
        obtain ⟨⟨⟨⟨-, hm1⟩, hm2⟩, hd1⟩, hd4⟩ := hval
        simp only [isValidDate, h8, eq_self_iff_true, if_true, jsMakeDay]
        have hy99 : ¬ ((yearOf s : ℤ) ≤ 99) := by omega
        rw [if_neg hy99]
        have hediv : ((monthOf s : ℤ) - 1) / 12 = 0 := by omega
        have hemod : ((monthOf s : ℤ) - 1) % 12 = (monthOf s : ℤ) - 1 := by omega
        rw [hediv, hemod, add_zero]
        have heq := (fixDay_spec 4 ((yearOf s : ℤ)) ((monthOf s : ℤ) - 1)
          ((dayOf s : ℤ)) (by omega) (by omega) (by omega)
          (by have := dayOf_lt s h8; omega)).2.2.2.2.2.2.1 hd4
        rw [heq]
        simp
    · constructor
      · intro hvalid
        simp [isValidDate, h8] at hvalid
      · intro hrhs
        obtain ⟨hval, -⟩ := hrhs
        simp [validCalendarDate, h8] at hval
  · intro latS lonS startS endS a b c d h
    simp only [getNASAPowerDataHandler] at h
    by_cases hmiss : (!jsStrTruthyOpt latS || !jsStrTruthyOpt lonS
        || !jsStrTruthyOpt startS || !jsStrTruthyOpt endS) = true
    · rw [if_pos hmiss] at h
      exact absurd h (by simp)
    · rw [if_neg hmiss] at h
      by_cases hcoord : (jsIsNaN (jsParseFloat (latS.getD ""))
          || jsIsNaN (jsParseFloat (lonS.getD ""))
          || jsLt (jsParseFloat (latS.getD "")) (-90)
          || jsGt (jsParseFloat (latS.getD "")) 90
          || jsLt (jsParseFloat (lonS.getD "")) (-180)
          || jsGt (jsParseFloat (lonS.getD "")) 180) = true
      · rw [if_pos hcoord] at h
        exact absurd h (by simp)
      · rw [if_neg hcoord] at h
        by_cases hdates : (!isValidDate (startS.getD "")
            || !isValidDate (endS.getD "")) = true
        · rw [if_pos hdates] at h
          exact absurd h (by simp)
        · rw [if_neg hdates] at h
          by_cases hord : jsStrGt (startS.getD "") (endS.getD "") = true
          · rw [if_pos hord] at h
            exact absurd h (by simp)
          · rw [if_neg hord] at h
            injection h with h1 h2 h3 h4
            subst h3
            subst h4
            simp only [Bool.or_eq_true, Bool.not_eq_true', not_or] at hdates
            exact ⟨by simpa using hdates.1, by simpa using hdates.2⟩

/-- Witness for C9: a concrete valid calendar date with a four-digit year is
accepted. -/
theorem isValidDate_calendar_witness :
    (validCalendarDate "20240501" = true ∧ 100 ≤ yearOf "20240501")
    ∧ isValidDate "20240501" = true :=
  ⟨⟨by decide, by decide⟩,
   (isValidDate_calendar.1 "20240501").mpr ⟨by decide, by decide⟩⟩

/- ===================== C7: processNASAResponse (nasa.js) ===================== -/

/-- JavaScript `substring(a, b)` for `a ≤ b` (clamps to the string length). -/
def subStr (s : String) (a b : Nat) : String :=
  ⟨(s.data.drop a).take (b - a)⟩

/-- `formatNASADate`: `YYYYMMDD` → `YYYY-MM-DD`. -/
def formatNASADate (dateStr : String) : String :=
  subStr dateStr 0 4 ++ "-" ++ subStr dateStr 4 6 ++ "-" ++ subStr dateStr 6 8

/-- English month names used by `toLocaleDateString('en-CA', {month: 'long'})`. -/
def monthLongName (m0 : ℤ) : String :=
  if m0 = 0 then "January" else if m0 = 1 then "February"
  else if m0 = 2 then "March" else if m0 = 3 then "April"
  else if m0 = 4 then "May" else if m0 = 5 then "June"
  else if m0 = 6 then "July" else if m0 = 7 then "August"
  else if m0 = 8 then "September" else if m0 = 9 then "October"
  else if m0 = 10 then "November" else "December"

/-- `formatDateDisplay`: `YYYYMMDD` → a long-form `en-CA` date such as
`May 29, 2024`, going through the same `new Date(y, m-1, d)` normalisation;
non-digit input produces an invalid date, rendered `Invalid Date`. -/
def formatDateDisplay (dateStr : String) : String :=
  if eightDigits dateStr then
    let year : ℤ := (yearOf dateStr : ℤ)
    let month : ℤ := (monthOf dateStr : ℤ)
    let day : ℤ := (dayOf dateStr : ℤ)
    let yAdj : ℤ := if year ≤ 99 then 1900 + year else year
    let r := jsMakeDay yAdj (month - 1) day
    monthLongName r.2.1 ++ " " ++ toString r.2.2 ++ ", " ++ toString r.1
  else "Invalid Date"

/-- Left-pad with zeros to `n` characters. -/
def padZeros (s : String) (n : Nat) : String :=
  ⟨List.replicate (n - s.data.length) '0'⟩ ++ s

/-- JavaScript `Number.prototype.toFixed(digits)` on the modelled (rational)
range: round to the nearest multiple of `10^-digits`, ties towards `+∞`.
(The sign of a negative value rounding to zero is dropped, and the argument
is assumed finite — both outside the claims' domain, where all formatted
values are nonnegative.) -/
def toFixedQ (q : ℚ) (digits : Nat) : String :=
  let scaled : ℤ := ⌊q * (10 : ℚ) ^ digits + 1 / 2⌋
  let a := scaled.natAbs
  let ip := a / 10 ^ digits
  let fp := a % 10 ^ digits
  (if scaled < 0 then "-" else "") ++ toString ip ++
    (if digits = 0 then "" else "." ++ padZeros (toString fp) digits)

/-- One per-day record of the processed series. -/
structure NasaDaily where
  date : String
  precipitation : Option ℚ
  unit : String
  note : Option String
deriving DecidableEq, Repr

/-- The `location` part of the processed series. -/
structure NasaLocation where
  latitude : ℚ
  longitude : ℚ
deriving DecidableEq, Repr

/-- The `period` part (`end` is rendered as `stop`). -/
structure NasaPeriod where
  start : String
  stop : String
  days : Nat
  daysWithData : Nat
deriving DecidableEq, Repr

/-- The `summary` part; all four fields are display strings. -/
structure NasaSummary where
  totalPrecipitation : String
  averageDaily : String
  unit : String
  dataCompleteness : String
deriving DecidableEq, Repr

/-- The constant `metadata` block. -/
structure NasaMetadata where
  source : String
  parameter : String
  spatialResolution : String
  temporalResolution : String
  lastUpdated : String
deriving DecidableEq, Repr

/-- The full value returned by `processNASAResponse`. -/
structure NasaProcessed where
  location : NasaLocation
  period : NasaPeriod
  summary : NasaSummary
  daily : List NasaDaily
  metadata : NasaMetadata
  timestamp : String
deriving DecidableEq, Repr

/-- One iteration of the `for (const [dateKey, value] of Object.entries(...))`
loop: push the daily record and, off the `-999` sentinel, accumulate the
total and the day count. -/
def nasaStep (acc : List NasaDaily × ℚ × Nat) (p : String × ℚ) :
    List NasaDaily × ℚ × Nat :=
  if p.2 ≠ -999 then
    (acc.1 ++ [⟨formatNASADate p.1, some p.2, "mm", none⟩],
     acc.2.1 + p.2, acc.2.2 + 1)
  else
    (acc.1 ++ [⟨formatNASADate p.1, none, "mm", some "No data available"⟩],
     acc.2.1, acc.2.2)

/-- `processNASAResponse` from `functions/src/services/nasa.js`, as a function
of the `PRECTOTCORR` entry list (in `Object.entries` order), the optional
`header.fill_value`, the request parameters, and the clock reading.  On an
empty series JavaScript computes `0/0 = NaN`, rendered `NaN%`. -/
def processNASAResponse (precipEntries : List (String × ℚ))
    (headerFill : Option String) (lat lon : ℚ) (startDate endDate : String)
    (nowIso : String) : NasaProcessed :=
  let r := precipEntries.foldl nasaStep ([], 0, 0)
  let dailyData := r.1
  let totalPrecipitation := r.2.1
  let daysWithData := r.2.2
  let averageDailyPrecipitation : String :=
    if 0 < daysWithData then toFixedQ (totalPrecipitation / daysWithData) 2
    else "0.00"
  { location := ⟨lat, lon⟩
    period := ⟨formatDateDisplay startDate, formatDateDisplay endDate,
      dailyData.length, daysWithData⟩
    summary := ⟨toFixedQ totalPrecipitation 2, averageDailyPrecipitation, "mm",
      (if dailyData.length = 0 then "NaN"
       else toFixedQ ((daysWithData : ℚ) / (dailyData.length : ℚ) * 100) 1) ++ "%"⟩
    daily := dailyData
    metadata := ⟨"NASA POWER", "PRECTOTCORR (Precipitation Corrected)",
      "0.5 x 0.5 degree", "Daily", jsStrOr headerFill "Unknown"⟩
    timestamp := nowIso }

/-- The per-day record the loop builds for one entry. -/
def nasaDailyOf (p : String × ℚ) : NasaDaily :=
  if p.2 ≠ -999 then ⟨formatNASADate p.1, some p.2, "mm", none⟩
  else ⟨formatNASADate p.1, none, "mm", some "No data available"⟩

/-- The loop accumulates exactly the mapped daily records, the sum of the
non-sentinel values, and their count. -/
theorem nasaLoop_spec : ∀ (entries : List (String × ℚ))
    (acc : List NasaDaily × ℚ × Nat),
    entries.foldl nasaStep acc
      = (acc.1 ++ entries.map nasaDailyOf,
         acc.2.1 + ((entries.filter (fun p => p.2 ≠ -999)).map (fun p => p.2)).sum,
         acc.2.2 + (entries.filter (fun p => p.2 ≠ -999)).length) := by
  intro entries
  induction entries with
  | nil =>
    intro acc
    simp
  | cons p rest ih =>
    intro acc
    rw [List.foldl_cons, ih]
    by_cases hp : p.2 = -999
    · simp only [nasaStep, nasaDailyOf, hp, ne_eq, not_true_eq_false, if_false,
        List.map_cons, List.filter_cons]
      simp [List.append_assoc]
    · simp only [nasaStep, nasaDailyOf, ne_eq, hp, not_false_eq_true, if_true,
        List.map_cons, List.filter_cons]
      simp [hp, List.append_assoc, Prod.ext_iff]
      constructor
      · ring
      · omega

/-- The spec's 8-day example series with one missing-data sentinel. -/
def ex8 : List (String × ℚ) :=
  [("20240501", 2), ("20240502", 0), ("20240503", -999), ("20240504", 5),
   ("20240505", 1), ("20240506", 0), ("20240507", 3), ("20240508", 4)]

/-- C7: every requested day maps to one daily record, sentinel days carry
`null` precipitation (never zero), the total is the 2-decimal sum of
non-null values, the average is total over non-null count (or `"0.00"`),
completeness is non-null over all days times 100 at 1 decimal — and the
8-day example with one sentinel yields `87.5%` and exactly one null entry. -/
theorem processNASA_summary_spec :
    (∀ (entries : List (String × ℚ)) (hf : Option String) (lat lon : ℚ)
        (sd ed now : String),
      (processNASAResponse entries hf lat lon sd ed now).daily
          = entries.map nasaDailyOf
      ∧ (∀ p : String × ℚ, (nasaDailyOf p).precipitation
            = (if p.2 = -999 then none else some p.2))
      ∧ (processNASAResponse entries hf lat lon sd ed now).summary.totalPrecipitation
          = toFixedQ ((entries.filter (fun p => p.2 ≠ -999)).map (fun p => p.2)).sum 2
      ∧ (processNASAResponse entries hf lat lon sd ed now).summary.averageDaily
          = (if 0 < (entries.filter (fun p => p.2 ≠ -999)).length then
               toFixedQ (((entries.filter (fun p => p.2 ≠ -999)).map (fun p => p.2)).sum
                 / ((entries.filter (fun p => p.2 ≠ -999)).length : ℚ)) 2
             else "0.00")
      ∧ (entries ≠ [] →
          (processNASAResponse entries hf lat lon sd ed now).summary.dataCompleteness
            = toFixedQ (((entries.filter (fun p => p.2 ≠ -999)).length : ℚ)
                / (entries.length : ℚ) * 100) 1 ++ "%"))
    ∧ (processNASAResponse ex8 none 50 (-97) "20240501" "20240508"
        "T").summary.dataCompleteness = "87.5%"
    ∧ (processNASAResponse ex8 none 50 (-97) "20240501" "20240508" "T").daily.length = 8
    ∧ ((processNASAResponse ex8 none 50 (-97) "20240501" "20240508" "T").daily.filter
        (fun day => day.precipitation.isNone)).length = 1 := by
  have hgen : ∀ (entries : List (String × ℚ)) (hf : Option String) (lat lon : ℚ)
      (sd ed now : String),
      (processNASAResponse entries hf lat lon sd ed now).daily
          = entries.map nasaDailyOf
      ∧ (∀ p : String × ℚ, (nasaDailyOf p).precipitation
            = (if p.2 = -999 then none else some p.2))
      ∧ (processNASAResponse entries hf lat lon sd ed now).summary.totalPrecipitation
          = toFixedQ ((entries.filter (fun p => p.2 ≠ -999)).map (fun p => p.2)).sum 2
      ∧ (processNASAResponse entries hf lat lon sd ed now).summary.averageDaily
          = (if 0 < (entries.filter (fun p => p.2 ≠ -999)).length then
               toFixedQ (((entries.filter (fun p => p.2 ≠ -999)).map (fun p => p.2)).sum
                 / ((entries.filter (fun p => p.2 ≠ -999)).length : ℚ)) 2
             else "0.00")
      ∧ (entries ≠ [] →
          (processNASAResponse entries hf lat lon sd ed now).summary.dataCompleteness
            = toFixedQ (((entries.filter (fun p => p.2 ≠ -999)).length : ℚ)
                / (entries.length : ℚ) * 100) 1 ++ "%") := by
    intro entries hf lat lon sd ed now
    have hloop := nasaLoop_spec entries ([], 0, 0)
    refine ⟨?_, ?_, ?_, ?_, ?_⟩
    · simp only [processNASAResponse, hloop]
      simp
    · intro p
      by_cases hp : p.2 = -999
      · simp [nasaDailyOf, hp]
      · simp [nasaDailyOf, hp]
    · simp only [processNASAResponse, hloop]
      simp
    · simp only [processNASAResponse, hloop]
      simp
    · intro hne
      have hlen0 : ¬ (entries.map nasaDailyOf).length = 0 := by
        simp [hne]
      simp only [processNASAResponse, hloop]
      simp only [List.nil_append, zero_add]
      rw [if_neg hlen0]
      simp
  refine ⟨hgen, ?_, ?_, ?_⟩
  · have h1 := (hgen ex8 none 50 (-97) "20240501" "20240508" "T").2.2.2.2
      (by simp [ex8])
    rw [h1]
    have hcount : ((ex8.filter (fun p => p.2 ≠ -999)).length : ℚ) = 7 := by
      norm_num [ex8, List.filter]
    have hlen : ((ex8.length : ℚ)) = 8 := by norm_num [ex8]
    rw [hcount, hlen]
    have hfloor : (⌊(7 : ℚ) / 8 * 100 * (10 : ℚ) ^ (1 : ℕ) + 1 / 2⌋ : ℤ) = 875 := by
      norm_num
    simp only [toFixedQ]
    rw [hfloor]
    decide
  · rw [(hgen ex8 none 50 (-97) "20240501" "20240508" "T").1]
    simp [ex8]
  · rw [(hgen ex8 none 50 (-97) "20240501" "20240508" "T").1]
    norm_num [ex8, nasaDailyOf, List.filter]

/-- Witness for C7: the completeness formula applied to a one-day series. -/
theorem processNASA_summary_spec_witness :
    ([(("20240601" : String), (3 : ℚ))] ≠ ([] : List (String × ℚ)))
    ∧ (processNASAResponse [("20240601", 3)] none 1 2 "20240601" "20240601"
        "T").summary.dataCompleteness
      = toFixedQ ((([(("20240601" : String), (3 : ℚ))].filter
            (fun p => p.2 ≠ -999)).length : ℚ)
          / (([(("20240601" : String), (3 : ℚ))].length : ℚ)) * 100) 1 ++ "%" :=
  ⟨by simp,
   (processNASA_summary_spec.1 [("20240601", 3)] none 1 2 "20240601" "20240601"
     "T").2.2.2.2 (by simp)⟩
